import Mathlib

set_option autoImplicit false

/-!
# The multi-tenant runtime registry of go-admin-core

A shallow embedding of `sdk/runtime/application.go`: the `Application` struct, its
reader/writer lock, its tenant-keyed binding maps and the public accessors, followed by
theorems about them.

Conventions of the embedding

* A Go `map[string]V` is an association list in which the first entry of a key is the
  binding of that key: `GoMap.find` is the two-valued index expression `v, ok := m[k]`,
  `GoMap.index` the one-valued `m[k]` (zero value on a miss), `GoMap.assign` is `m[k] = v`
  and replaces that first entry.
* Pointers and interface values (`*gorm.DB`, `*casbin.SyncedEnforcer`, `*cron.Cron`,
  `interface{}`, `func()`) are opaque handles: `Value.nil` or `Value.obj id`.
* `sync.RWMutex` is explicit state. A call runs on one goroutine; a `Lock` or `RLock` that
  cannot be granted can never be granted later by the same goroutine, so it ends the call
  with `Fault.deadlock`, leaving the state as it is at that point.
* Every operation is a function from the registry state to an `Outcome`: either a returned
  value with the new state, or a fault with the state at the fault.
* The field `trace` is not a field of the Go struct: it records, for every access to a
  guarded field, the state of the lock at the time of the access.
* The field `heap` is not a field of the Go struct either: it holds the map objects that
  the `Config` references stored in `configs` point to, so that two tenants bound to the
  same Go map share one bag.
-/

namespace Runtime

/-! ## Values and maps -/

/-- A Go pointer or interface value: the nil value or an opaque object. -/
inductive Value where
  | nil
  | obj (id : Nat)
  deriving DecidableEq, Repr

instance : Inhabited Value := ⟨Value.nil⟩

/-- A Go `map[string]V`, as the list of its entries. -/
abbrev GoMap (V : Type) := List (String × V)

/-- The two-valued index expression `v, ok := m[k]`: `none` stands for `ok == false`. -/
def GoMap.find {V : Type} : GoMap V → String → Option V
  | [], _ => none
  | (k1, v) :: rest, k => if k1 = k then some v else GoMap.find rest k

/-- The index expression `m[k]`, which yields the zero value of `V` on a miss. -/
def GoMap.index {V : Type} [Inhabited V] (m : GoMap V) (k : String) : V :=
  (GoMap.find m k).getD default

/-- The assignment `m[k] = v`: replaces the entry of `k`, or adds one. -/
def GoMap.assign {V : Type} : GoMap V → String → V → GoMap V
  | [], k, v => [(k, v)]
  | (k1, v1) :: rest, k, v =>
    if k1 = k then (k, v) :: rest else (k1, v1) :: GoMap.assign rest k v

/-- The built-in `delete(m, k)`. -/
def GoMap.delete {V : Type} : GoMap V → String → GoMap V
  | [], _ => []
  | (k1, v1) :: rest, k =>
    if k1 = k then GoMap.delete rest k else (k1, v1) :: GoMap.delete rest k

/-- The type `*gorm.DB`. -/
abbrev DB := Value
/-- The type `*casbin.SyncedEnforcer`. -/
abbrev Enforcer := Value
/-- The type `*cron.Cron`. -/
abbrev Cron := Value
/-- Values of the types `func()` and `func(r *gin.RouterGroup, hand ...*gin.HandlerFunc)`. -/
abbrev Func := Value

/-- The Go type `Config` (`map[string]interface{}`) as a value: a map value is nil or a
reference to a map object; the object lives in the `heap` of the state. -/
inductive Config where
  | nil
  | ref (addr : Nat)
  deriving DecidableEq, Repr

instance : Inhabited Config := ⟨Config.nil⟩

/-- The map objects that `Config` references point to, by address. -/
abbrev Heap := List (GoMap Value)

/-- The contents of the map object at an address (empty when there is none). -/
def Heap.bag (h : Heap) (addr : Nat) : GoMap Value := h.getD addr []

/-- Replace the contents of the map object at an address. -/
def Heap.update : Heap → Nat → (GoMap Value → GoMap Value) → Heap
  | [], _, _ => []
  | b :: rest, 0, f => f b :: rest
  | b :: rest, n + 1, f => b :: Heap.update rest n f

/-- Reading `c[key]` for a map value `c`: reading a nil map yields the zero value. -/
def Heap.read (h : Heap) (c : Config) (key : String) : Value :=
  match c with
  | Config.nil => Value.nil
  | Config.ref a => GoMap.index (Heap.bag h a) key

/-! ## The lock -/

/-- The state of a `sync.RWMutex`: whether a writer holds it and how many readers do. -/
structure RWMutex where
  writer : Bool
  readers : Nat
  deriving DecidableEq, Repr

/-- The zero value of `sync.RWMutex`: nobody holds it. -/
def RWMutex.free : RWMutex := { writer := false, readers := 0 }

/-- The lock held by one writer. -/
def RWMutex.held : RWMutex := { writer := true, readers := 0 }

/-- The fields of `Application` that the lock `mux` is meant to guard, and the two
callback lists. -/
inductive Field where
  | dbs | casbins | crontab | middlewares | handler | configs | casbinExclude | app
  | defaultTenant | before | appRouters
  deriving DecidableEq, Repr

/-- One access to a field: which field, whether it is written, and the state of the lock
when the access happens. -/
structure Access where
  field : Field
  write : Bool
  mux : RWMutex
  deriving DecidableEq, Repr

/-- An access is guarded when a write happens under the write lock and a read under the
read or the write lock. -/
def Access.guarded (a : Access) : Bool :=
  if a.write then a.mux.writer else (a.mux.writer || decide (0 < a.mux.readers))

/-! ## The registry -/

/-- Type `type Router struct { HttpMethod, RelativePath, Handler string }` -/
structure Router where
  HttpMethod : String
  RelativePath : String
  Handler : String
  deriving DecidableEq, Repr

/-- The fields of `gin.RouteInfo` that the registry reads. -/
structure RouteInfo where
  Method : String
  Path : String
  Handler : String
  deriving DecidableEq, Repr

/-- The routing engine field `engine http.Handler`: nil, a `*gin.Engine` (of which only
the result of `Routes()` is looked at), or any other handler. -/
inductive Engine where
  | nil
  | gin (routes : List RouteInfo)
  | other (id : Nat)
  deriving DecidableEq, Repr

/-- Constant `const DefaultTenant = "default"` -/
def DefaultTenant : String := "default"

/-- Type `type Application struct`, with the two fields `heap` and `trace` of the embedding. -/
structure Application where
  dbs : GoMap DB
  casbins : GoMap Enforcer
  engine : Engine
  crontab : GoMap Cron
  mux : RWMutex
  middlewares : GoMap Value
  cache : Value
  queue : Value
  locker : Value
  memoryQueue : Value
  handler : GoMap (List Func)
  routers : List Router
  configs : GoMap Config
  appRouters : List Func
  casbinExclude : GoMap Value
  before : List Func
  defaultTenant : String
  app : GoMap Value
  heap : Heap
  trace : List Access
  deriving DecidableEq, Repr

/-- How a call can fail to return. -/
inductive Fault where
  /-- The goroutine blocks forever on a lock it holds itself. -/
  | deadlock
  /-- The panic `assignment to entry in nil map`. -/
  | nilMapAssign
  /-- The fatal error `sync: Unlock of unlocked RWMutex` (and `RUnlock` likewise). -/
  | unlockOfUnlocked
  deriving DecidableEq, Repr

/-- The outcome of a call: a return value and the new state, or a fault and the state
at the fault. -/
inductive Outcome (α : Type) where
  | ok (ret : α) (e : Application)
  | fault (f : Fault) (e : Application)
  deriving DecidableEq, Repr

/-- The returned value, when the call returns. -/
def Outcome.ret? {α : Type} : Outcome α → Option α
  | Outcome.ok r _ => some r
  | Outcome.fault _ _ => none

/-- The state the call leaves behind. -/
def Outcome.state {α : Type} : Outcome α → Application
  | Outcome.ok _ e => e
  | Outcome.fault _ e => e

/-- The fault, when the call does not return. -/
def Outcome.fault? {α : Type} : Outcome α → Option Fault
  | Outcome.ok _ _ => none
  | Outcome.fault f _ => some f

/-- A method of `*Application`. -/
def Op (α : Type) : Type := Application → Outcome α

/-- Run a method on a state. -/
def Op.run {α : Type} (m : Op α) (e : Application) : Outcome α := m e

/-- Return a value. -/
def Op.pure {α : Type} (a : α) : Op α := fun e => Outcome.ok a e

/-- Sequencing of statements: a fault ends the call. -/
def Op.bind {α β : Type} (m : Op α) (f : α → Op β) : Op β := fun e =>
  match m e with
  | Outcome.ok a e1 => f a e1
  | Outcome.fault x e1 => Outcome.fault x e1

instance : Monad Op where
  pure := Op.pure
  bind := Op.bind

/-- A panic or a block: the call ends here. -/
def Op.raise {α : Type} (f : Fault) : Op α := fun e => Outcome.fault f e

/-- The call `e.mux.Lock()`: granted when nobody holds the lock. -/
def Lock : Op Unit := fun e =>
  if e.mux.writer = false ∧ e.mux.readers = 0 then
    Outcome.ok () { e with mux := { e.mux with writer := true } }
  else Outcome.fault Fault.deadlock e

/-- The call `e.mux.Unlock()` -/
def Unlock : Op Unit := fun e =>
  if e.mux.writer = true then
    Outcome.ok () { e with mux := { e.mux with writer := false } }
  else Outcome.fault Fault.unlockOfUnlocked e

/-- The call `e.mux.RLock()`: granted when no writer holds the lock. -/
def RLock : Op Unit := fun e =>
  if e.mux.writer = false then
    Outcome.ok () { e with mux := { e.mux with readers := e.mux.readers + 1 } }
  else Outcome.fault Fault.deadlock e

/-- The call `e.mux.RUnlock()` -/
def RUnlock : Op Unit := fun e =>
  if 0 < e.mux.readers then
    Outcome.ok () { e with mux := { e.mux with readers := e.mux.readers - 1 } }
  else Outcome.fault Fault.unlockOfUnlocked e

/-- Read a field: the value read, and one read access in the trace. -/
def load {α : Type} (f : Field) (proj : Application → α) : Op α := fun e =>
  Outcome.ok (proj e) { e with trace := e.trace ++ [{ field := f, write := false, mux := e.mux }] }

/-- Write a field: the update, and one write access in the trace. -/
def store (f : Field) (upd : Application → Application) : Op Unit := fun e =>
  Outcome.ok () { upd e with trace := e.trace ++ [{ field := f, write := true, mux := e.mux }] }

/-- The lookup shared by the wildcard getters:
`if val, ok := m["*"]; ok { return val }; return m[tenant]`. -/
def wildcardLookup (m : GoMap Value) (tenant : String) : Value :=
  match GoMap.find m "*" with
  | some val => val
  | none => GoMap.index m tenant

/-- Method `func (e *Application) getFromMap(m map[string]interface{}, tenant string) interface{}`.
The caller passes the map field (here by its name and projection); its entries are read
under the read lock. -/
def getFromMap (f : Field) (m : Application → GoMap Value) (tenant : String) : Op Value := do
  RLock
  let entries ← load f m
  let ret := wildcardLookup entries tenant
  RUnlock
  return ret

/-- Function `func NewConfig() *Application`: every map is made empty, the default tenant
is `DefaultTenant`, and `memoryQueue` is the object made by `queue.NewMemory(10000)`. -/
def NewConfig : Application :=
  { dbs := [], casbins := [], engine := Engine.nil, crontab := [], mux := RWMutex.free,
    middlewares := [], cache := Value.nil, queue := Value.nil, locker := Value.nil,
    memoryQueue := Value.obj 10000, handler := [], routers := [], configs := [],
    appRouters := [], casbinExclude := [], before := [], defaultTenant := DefaultTenant,
    app := [], heap := [], trace := [] }

/-- Method `func (e *Application) SetDefaultTenant(tenant string)` -/
def SetDefaultTenant (tenant : String) : Op Unit := do
  Lock
  store Field.defaultTenant (fun e => { e with defaultTenant := tenant })
  Unlock

/-- Method `func (e *Application) GetDefaultTenant() string` -/
def GetDefaultTenant : Op String := do
  RLock
  let ret ← load Field.defaultTenant (fun e => e.defaultTenant)
  RUnlock
  return ret

/-! ### Databases -/

/-- Method `func (e *Application) SetDbByTenant(tenant string, db *gorm.DB)` -/
def SetDbByTenant (tenant : String) (db : DB) : Op Unit := do
  Lock
  store Field.dbs (fun e => { e with dbs := GoMap.assign e.dbs tenant db })
  Unlock

/-- Method `func (e *Application) SetDb(db *gorm.DB)`: the index `e.GetDefaultTenant()` is
evaluated while the write lock is held. -/
def SetDb (db : DB) : Op Unit := do
  Lock
  let tenant ← GetDefaultTenant
  store Field.dbs (fun e => { e with dbs := GoMap.assign e.dbs tenant db })
  Unlock

/-- Method `func (e *Application) GetDbByTenant(tenant string) *gorm.DB` -/
def GetDbByTenant (tenant : String) : Op DB := do
  Lock
  let dbs ← load Field.dbs (fun e => e.dbs)
  let ret := wildcardLookup dbs tenant
  Unlock
  return ret

/-- Method `func (e *Application) GetDb() *gorm.DB` -/
def GetDb : Op DB := do
  let tenant ← GetDefaultTenant
  GetDbByTenant tenant

/-- Method `func (e *Application) GetAllDb() map[string]*gorm.DB` -/
def GetAllDb : Op (GoMap DB) := do
  Lock
  let ret ← load Field.dbs (fun e => e.dbs)
  Unlock
  return ret

/-- The statement `delete(e.GetAllDb(), key)` of a caller. The registry has no operation
that removes a binding; `GetAllDb` returns the map object of the registry itself, so the
removal acts on `e.dbs`, outside the lock. -/
def deleteFromAllDb (key : String) : Op Unit := do
  let _ ← GetAllDb
  store Field.dbs (fun e => { e with dbs := GoMap.delete e.dbs key })

/-! ### Startup callbacks -/

/-- Method `func (e *Application) SetBefore(f func())` -/
def SetBefore (f : Func) : Op Unit :=
  store Field.before (fun e => { e with before := e.before ++ [f] })

/-- Method `func (e *Application) GetBefore() []func()` -/
def GetBefore : Op (List Func) :=
  load Field.before (fun e => e.before)

/-! ### The generic app handle -/

/-- Method `func (e *Application) SetAppByTenant(key string, app interface{})` -/
def SetAppByTenant (key : String) (app : Value) : Op Unit := do
  Lock
  store Field.app (fun e => { e with app := GoMap.assign e.app key app })
  Unlock

/-- Method `func (e *Application) SetApp(app interface{})` -/
def SetApp (app : Value) : Op Unit := do
  Lock
  let tenant ← GetDefaultTenant
  store Field.app (fun e => { e with app := GoMap.assign e.app tenant app })
  Unlock

/-- Method `func (e *Application) GetApp() map[string]interface{}` -/
def GetApp : Op (GoMap Value) := do
  Lock
  let ret ← load Field.app (fun e => e.app)
  Unlock
  return ret

/-- Method `func (e *Application) GetAppByTenant(tenant string) interface{}` -/
def GetAppByTenant (tenant : String) : Op Value :=
  getFromMap Field.app (fun e => e.app) tenant

/-! ### Casbin exclusions -/

/-- Method `func (e *Application) SetCasbinExcludeByTenant(tenant string, list interface{})` -/
def SetCasbinExcludeByTenant (tenant : String) (list : Value) : Op Unit := do
  Lock
  store Field.casbinExclude
    (fun e => { e with casbinExclude := GoMap.assign e.casbinExclude tenant list })
  Unlock

/-- Method `func (e *Application) SetCasbinExclude(list interface{})` -/
def SetCasbinExclude (list : Value) : Op Unit := do
  Lock
  let tenant ← GetDefaultTenant
  store Field.casbinExclude
    (fun e => { e with casbinExclude := GoMap.assign e.casbinExclude tenant list })
  Unlock

/-- Method `func (e *Application) GetCasbinExclude() map[string]interface{}` -/
def GetCasbinExclude : Op (GoMap Value) := do
  Lock
  let ret ← load Field.casbinExclude (fun e => e.casbinExclude)
  Unlock
  return ret

/-- Method `func (e *Application) GetCasbinExcludeByTenant(tenant string) interface{}` -/
def GetCasbinExcludeByTenant (tenant : String) : Op Value := do
  Lock
  let m ← load Field.casbinExclude (fun e => e.casbinExclude)
  let ret := wildcardLookup m tenant
  Unlock
  return ret

/-! ### Casbin enforcers -/

/-- Method `func (e *Application) SetCasbinByTenant(tenant string, enforcer *casbin.SyncedEnforcer)` -/
def SetCasbinByTenant (tenant : String) (enforcer : Enforcer) : Op Unit := do
  Lock
  store Field.casbins (fun e => { e with casbins := GoMap.assign e.casbins tenant enforcer })
  Unlock

/-- Method `func (e *Application) SetCasbin(enforcer *casbin.SyncedEnforcer)` -/
def SetCasbin (enforcer : Enforcer) : Op Unit := do
  Lock
  let tenant ← GetDefaultTenant
  store Field.casbins (fun e => { e with casbins := GoMap.assign e.casbins tenant enforcer })
  Unlock

/-- Method `func (e *Application) GetAllCasbin() map[string]*casbin.SyncedEnforcer` -/
def GetAllCasbin : Op (GoMap Enforcer) :=
  load Field.casbins (fun e => e.casbins)

/-- Method `func (e *Application) GetCasbinByTenant(tenant string) *casbin.SyncedEnforcer` -/
def GetCasbinByTenant (tenant : String) : Op Enforcer := do
  Lock
  let m ← load Field.casbins (fun e => e.casbins)
  let ret := wildcardLookup m tenant
  Unlock
  return ret

/-- Method `func (e *Application) GetCasbin() *casbin.SyncedEnforcer` -/
def GetCasbin : Op Enforcer := do
  let tenant ← GetDefaultTenant
  GetCasbinByTenant tenant

/-! ### The routing engine -/

/-- Method `func (e *Application) SetEngine(engine http.Handler)` -/
def SetEngine (engine : Engine) : Op Unit := fun e =>
  Outcome.ok () { e with engine := engine }

/-- Method `func (e *Application) GetEngine() http.Handler` -/
def GetEngine : Op Engine := fun e => Outcome.ok e.engine e

/-- Method `func (e *Application) setRouter() []Router` -/
def setRouter : Op (List Router) := fun e =>
  match e.engine with
  | Engine.gin routers =>
    let e1 := { e with routers := routers.foldl (fun acc router => acc ++
      [{ RelativePath := router.Path, Handler := router.Handler,
         HttpMethod := router.Method }]) e.routers }
    Outcome.ok e1.routers e1
  | _ => Outcome.ok e.routers e

/-- Method `func (e *Application) GetRouter() []Router` -/
def GetRouter : Op (List Router) := setRouter

/-! ### Cron schedulers -/

/-- Method `func (e *Application) SetCrontabByTenant(key string, crontab *cron.Cron)` -/
def SetCrontabByTenant (key : String) (crontab : Cron) : Op Unit := do
  Lock
  store Field.crontab (fun e => { e with crontab := GoMap.assign e.crontab key crontab })
  Unlock

/-- Method `func (e *Application) SetCrontab(crontab *cron.Cron)` -/
def SetCrontab (crontab : Cron) : Op Unit := do
  Lock
  let tenant ← GetDefaultTenant
  store Field.crontab (fun e => { e with crontab := GoMap.assign e.crontab tenant crontab })
  Unlock

/-- Method `func (e *Application) GetAllCrontab() map[string]*cron.Cron` -/
def GetAllCrontab : Op (GoMap Cron) := do
  Lock
  let ret ← load Field.crontab (fun e => e.crontab)
  Unlock
  return ret

/-- Method `func (e *Application) GetCrontabByTenant(tenant string) *cron.Cron` -/
def GetCrontabByTenant (tenant : String) : Op Cron := do
  Lock
  let m ← load Field.crontab (fun e => e.crontab)
  let ret := wildcardLookup m tenant
  Unlock
  return ret

/-- Method `func (e *Application) GetCrontab() *cron.Cron` -/
def GetCrontab : Op Cron := do
  let tenant ← GetDefaultTenant
  GetCrontabByTenant tenant

/-! ### Middlewares -/

/-- Method `func (e *Application) SetMiddleware(key string, middleware interface{})` -/
def SetMiddleware (key : String) (middleware : Value) : Op Unit := do
  Lock
  store Field.middlewares
    (fun e => { e with middlewares := GoMap.assign e.middlewares key middleware })
  Unlock

/-- Method `func (e *Application) GetAllMiddleware() map[string]interface{}` -/
def GetAllMiddleware : Op (GoMap Value) :=
  load Field.middlewares (fun e => e.middlewares)

/-- Method `func (e *Application) GetMiddleware(key string) interface{}` -/
def GetMiddleware (key : String) : Op Value := do
  Lock
  let ret ← load Field.middlewares (fun e => GoMap.index e.middlewares key)
  Unlock
  return ret

/-! ### Route handlers -/

/-- Method `func (e *Application) SetHandler(routerGroup func(...))`: the statement
`e.handler[e.GetDefaultTenant()] = append(e.handler[e.GetDefaultTenant()], routerGroup)`
calls `GetDefaultTenant` twice, left to right, under the write lock. -/
def SetHandler (routerGroup : Func) : Op Unit := do
  Lock
  let target ← GetDefaultTenant
  let source ← GetDefaultTenant
  let old ← load Field.handler (fun e => GoMap.index e.handler source)
  store Field.handler
    (fun e => { e with handler := GoMap.assign e.handler target (old ++ [routerGroup]) })
  Unlock

/-- Method `func (e *Application) SetHandlerByTenant(tenant string, routerGroup func(...))` -/
def SetHandlerByTenant (tenant : String) (routerGroup : Func) : Op Unit := do
  Lock
  let old ← load Field.handler (fun e => GoMap.index e.handler tenant)
  store Field.handler
    (fun e => { e with handler := GoMap.assign e.handler tenant (old ++ [routerGroup]) })
  Unlock

/-- Method `func (e *Application) GetAllHandler() map[string][]func(...)` -/
def GetAllHandler : Op (GoMap (List Func)) := do
  Lock
  let ret ← load Field.handler (fun e => e.handler)
  Unlock
  return ret

/-- Method `func (e *Application) GetHandler() []func(...)` -/
def GetHandler : Op (List Func) := do
  Lock
  let tenant ← GetDefaultTenant
  let ret ← load Field.handler (fun e => GoMap.index e.handler tenant)
  Unlock
  return ret

/-- Method `func (e *Application) GetHandlerByTenant(tenant string) []func(...)` -/
def GetHandlerByTenant (tenant : String) : Op (List Func) := do
  Lock
  let ret ← load Field.handler (fun e => GoMap.index e.handler tenant)
  Unlock
  return ret

/-! ### Config values -/

/-- Method `func (e *Application) SetConfigByTenant(tenant string, value map[string]interface{})`:
the map value of the caller is stored as it is (a reference, or nil). -/
def SetConfigByTenant (tenant : String) (value : Config) : Op Unit := do
  Lock
  store Field.configs (fun e => { e with configs := GoMap.assign e.configs tenant value })
  Unlock

/-- Method `func (e *Application) SetConfigValueByTenant(tenant, key string, value interface{})`.
When `tenant` has no entry a new map object is made and bound. The assignment
`e.configs[tenant][key] = value` then writes into the map object bound to `tenant`, and
panics when that map value is nil; the deferred `Unlock` runs before the panic leaves. -/
def SetConfigValueByTenant (tenant key : String) (value : Value) : Op Unit := do
  Lock
  let bound ← load Field.configs (fun e => GoMap.find e.configs tenant)
  if bound.isNone then
    store Field.configs (fun e =>
      { e with heap := e.heap ++ [[]],
               configs := GoMap.assign e.configs tenant (Config.ref e.heap.length) })
  let bag ← load Field.configs (fun e => GoMap.index e.configs tenant)
  match bag with
  | Config.nil =>
    Unlock
    Op.raise Fault.nilMapAssign
  | Config.ref addr =>
    store Field.configs (fun e =>
      { e with heap := Heap.update e.heap addr (fun b => GoMap.assign b key value) })
    Unlock

/-- Method `func (e *Application) GetConfigValueByTenant(tenant, key string) interface{}` -/
def GetConfigValueByTenant (tenant key : String) : Op Value := do
  Lock
  let ret ← load Field.configs (fun e => Heap.read e.heap (GoMap.index e.configs tenant) key)
  Unlock
  return ret

/-- Method `func (e *Application) GetConfigByTenant(tenant string) map[string]interface{}` -/
def GetConfigByTenant (tenant : String) : Op Config := do
  Lock
  let ret ← load Field.configs (fun e => GoMap.index e.configs tenant)
  Unlock
  return ret

/-- Method `func (e *Application) GetConfig() map[string]interface{}` -/
def GetConfig : Op Config := do
  Lock
  let tenant ← GetDefaultTenant
  let ret ← load Field.configs (fun e => GoMap.index e.configs tenant)
  Unlock
  return ret

/-- Method `func (e *Application) GetConfigValue(key string) interface{}` -/
def GetConfigValue (key : String) : Op Value := do
  let tenant ← GetDefaultTenant
  GetConfigValueByTenant tenant key

/-- Method `func (e *Application) SetConfigValue(key string, value interface{})` -/
def SetConfigValue (key : String) (value : Value) : Op Unit := do
  let tenant ← GetDefaultTenant
  SetConfigValueByTenant tenant key value

/-! ### App routers -/

/-- Method `func (e *Application) SetAppRouters(appRouters func())` -/
def SetAppRouters (appRouters : Func) : Op Unit :=
  store Field.appRouters (fun e => { e with appRouters := e.appRouters ++ [appRouters] })

/-- Method `func (e *Application) GetAppRouters() []func()` -/
def GetAppRouters : Op (List Func) :=
  load Field.appRouters (fun e => e.appRouters)

/-! ## The public operations as one type -/

/-- Drop the returned value of an outcome. -/
def Outcome.forget {α : Type} : Outcome α → Outcome Unit
  | Outcome.ok _ e => Outcome.ok () e
  | Outcome.fault f e => Outcome.fault f e

/-- A call of one of the public methods above that touch a binding map, the default
tenant or a callback list, with its arguments. -/
inductive Call where
  | SetDbByTenant (tenant : String) (db : DB)
  | SetDb (db : DB)
  | GetDbByTenant (tenant : String)
  | GetDb
  | GetAllDb
  | SetBefore (f : Func)
  | GetBefore
  | SetAppByTenant (key : String) (app : Value)
  | SetApp (app : Value)
  | GetApp
  | GetAppByTenant (tenant : String)
  | SetCasbinExcludeByTenant (tenant : String) (list : Value)
  | SetCasbinExclude (list : Value)
  | GetCasbinExclude
  | GetCasbinExcludeByTenant (tenant : String)
  | SetCasbinByTenant (tenant : String) (enforcer : Enforcer)
  | SetCasbin (enforcer : Enforcer)
  | GetAllCasbin
  | GetCasbin
  | GetCasbinByTenant (tenant : String)
  | SetDefaultTenant (tenant : String)
  | GetDefaultTenant
  | SetCrontabByTenant (key : String) (crontab : Cron)
  | SetCrontab (crontab : Cron)
  | GetAllCrontab
  | GetCrontab
  | GetCrontabByTenant (tenant : String)
  | SetMiddleware (key : String) (middleware : Value)
  | GetAllMiddleware
  | GetMiddleware (key : String)
  | SetHandler (routerGroup : Func)
  | SetHandlerByTenant (tenant : String) (routerGroup : Func)
  | GetAllHandler
  | GetHandler
  | GetHandlerByTenant (tenant : String)
  | SetConfigByTenant (tenant : String) (value : Config)
  | SetConfigValueByTenant (tenant key : String) (value : Value)
  | GetConfigValueByTenant (tenant key : String)
  | GetConfigByTenant (tenant : String)
  | GetConfig
  | GetConfigValue (key : String)
  | SetConfigValue (key : String) (value : Value)
  | SetAppRouters (appRouters : Func)
  | GetAppRouters
  deriving DecidableEq, Repr

/-- Run a call on a state. -/
def Call.exec : Call → Application → Outcome Unit
  | Call.SetDbByTenant t db, e => (Runtime.SetDbByTenant t db e).forget
  | Call.SetDb db, e => (Runtime.SetDb db e).forget
  | Call.GetDbByTenant t, e => (Runtime.GetDbByTenant t e).forget
  | Call.GetDb, e => (Runtime.GetDb e).forget
  | Call.GetAllDb, e => (Runtime.GetAllDb e).forget
  | Call.SetBefore f, e => (Runtime.SetBefore f e).forget
  | Call.GetBefore, e => (Runtime.GetBefore e).forget
  | Call.SetAppByTenant k a, e => (Runtime.SetAppByTenant k a e).forget
  | Call.SetApp a, e => (Runtime.SetApp a e).forget
  | Call.GetApp, e => (Runtime.GetApp e).forget
  | Call.GetAppByTenant t, e => (Runtime.GetAppByTenant t e).forget
  | Call.SetCasbinExcludeByTenant t l, e => (Runtime.SetCasbinExcludeByTenant t l e).forget
  | Call.SetCasbinExclude l, e => (Runtime.SetCasbinExclude l e).forget
  | Call.GetCasbinExclude, e => (Runtime.GetCasbinExclude e).forget
  | Call.GetCasbinExcludeByTenant t, e => (Runtime.GetCasbinExcludeByTenant t e).forget
  | Call.SetCasbinByTenant t c, e => (Runtime.SetCasbinByTenant t c e).forget
  | Call.SetCasbin c, e => (Runtime.SetCasbin c e).forget
  | Call.GetAllCasbin, e => (Runtime.GetAllCasbin e).forget
  | Call.GetCasbin, e => (Runtime.GetCasbin e).forget
  | Call.GetCasbinByTenant t, e => (Runtime.GetCasbinByTenant t e).forget
  | Call.SetDefaultTenant t, e => (Runtime.SetDefaultTenant t e).forget
  | Call.GetDefaultTenant, e => (Runtime.GetDefaultTenant e).forget
  | Call.SetCrontabByTenant k c, e => (Runtime.SetCrontabByTenant k c e).forget
  | Call.SetCrontab c, e => (Runtime.SetCrontab c e).forget
  | Call.GetAllCrontab, e => (Runtime.GetAllCrontab e).forget
  | Call.GetCrontab, e => (Runtime.GetCrontab e).forget
  | Call.GetCrontabByTenant t, e => (Runtime.GetCrontabByTenant t e).forget
  | Call.SetMiddleware k m, e => (Runtime.SetMiddleware k m e).forget
  | Call.GetAllMiddleware, e => (Runtime.GetAllMiddleware e).forget
  | Call.GetMiddleware k, e => (Runtime.GetMiddleware k e).forget
  | Call.SetHandler r, e => (Runtime.SetHandler r e).forget
  | Call.SetHandlerByTenant t r, e => (Runtime.SetHandlerByTenant t r e).forget
  | Call.GetAllHandler, e => (Runtime.GetAllHandler e).forget
  | Call.GetHandler, e => (Runtime.GetHandler e).forget
  | Call.GetHandlerByTenant t, e => (Runtime.GetHandlerByTenant t e).forget
  | Call.SetConfigByTenant t v, e => (Runtime.SetConfigByTenant t v e).forget
  | Call.SetConfigValueByTenant t k v, e => (Runtime.SetConfigValueByTenant t k v e).forget
  | Call.GetConfigValueByTenant t k, e => (Runtime.GetConfigValueByTenant t k e).forget
  | Call.GetConfigByTenant t, e => (Runtime.GetConfigByTenant t e).forget
  | Call.GetConfig, e => (Runtime.GetConfig e).forget
  | Call.GetConfigValue k, e => (Runtime.GetConfigValue k e).forget
  | Call.SetConfigValue k v, e => (Runtime.SetConfigValue k v e).forget
  | Call.SetAppRouters r, e => (Runtime.SetAppRouters r e).forget
  | Call.GetAppRouters, e => (Runtime.GetAppRouters e).forget

/-- The accesses a call makes: what it adds to the trace. -/
def Call.accesses (c : Call) (e : Application) : List Access :=
  (c.exec e).state.trace.drop e.trace.length

/-- The unscoped operations whose body calls `e.GetDefaultTenant()` between
`e.mux.Lock()` and the deferred `e.mux.Unlock()`. -/
def Call.readsDefaultTenantUnderLock : Call → Bool
  | Call.SetDb _ => true
  | Call.SetApp _ => true
  | Call.SetCasbin _ => true
  | Call.SetCasbinExclude _ => true
  | Call.SetCrontab _ => true
  | Call.SetHandler _ => true
  | Call.GetHandler => true
  | Call.GetConfig => true
  | _ => false

/-- The operations whose body has no `e.mux.Lock()` or `e.mux.RLock()` at all. -/
def Call.takesNoLock : Call → Bool
  | Call.SetBefore _ => true
  | Call.GetBefore => true
  | Call.SetAppRouters _ => true
  | Call.GetAppRouters => true
  | Call.GetAllCasbin => true
  | Call.GetAllMiddleware => true
  | _ => false

/-- The operations on the two callback lists `before` and `appRouters`. -/
def Call.isCallbackListCall : Call → Bool
  | Call.SetBefore _ => true
  | Call.GetBefore => true
  | Call.SetAppRouters _ => true
  | Call.GetAppRouters => true
  | _ => false

/-! ## Sample registries -/

/-- A registry with a wildcard database and a database of the tenant `acme`, and likewise
for the other four wildcard stores. -/
def wildcardRegistry : Application :=
  { NewConfig with
    dbs := [("*", Value.obj 1), ("acme", Value.obj 2)],
    casbins := [("acme", Value.obj 2), ("*", Value.obj 1)],
    crontab := [("*", Value.obj 1)],
    casbinExclude := [("*", Value.obj 1), ("acme", Value.obj 2)],
    app := [("acme", Value.obj 2), ("*", Value.obj 1)] }

/-- A registry in which only the wildcard database is bound. -/
def wildcardDbRegistry : Application :=
  { NewConfig with dbs := [("*", Value.obj 1)] }

/-- A registry with databases, enforcers and schedulers of two tenants. -/
def twoTenantRegistry : Application :=
  { NewConfig with
    dbs := [("default", Value.obj 1), ("acme", Value.obj 2)],
    casbins := [("default", Value.obj 3), ("acme", Value.obj 4)],
    crontab := [("default", Value.obj 5), ("acme", Value.obj 6)] }

/-! ## Helpers for sequences of calls and for counting entries -/

/-- The calls `SetBefore(f)` for each `f` of a list, in the order of the list. -/
def SetBeforeAll : List Func → Op Unit
  | [] => Op.pure ()
  | f :: fs => Op.bind (SetBefore f) (fun _ => SetBeforeAll fs)

/-- The calls `SetAppRouters(f)` for each `f` of a list, in the order of the list. -/
def SetAppRoutersAll : List Func → Op Unit
  | [] => Op.pure ()
  | f :: fs => Op.bind (SetAppRouters f) (fun _ => SetAppRoutersAll fs)

/-- The keys of a map, in the order of its entries. -/
def GoMap.keys {V : Type} (m : GoMap V) : List String := m.map Prod.fst

/-- The number of entries a map holds for a key. -/
def GoMap.count {V : Type} (m : GoMap V) (k : String) : Nat :=
  (m.filter (fun p => decide (p.1 = k))).length

/-- The state with its trace of accesses dropped: the fields of the Go struct (and the
config bags) alone. -/
def Application.untraced (e : Application) : Application := { e with trace := [] }

/-- The `Router` that `setRouter` makes from one route of the engine:
`Router{RelativePath: router.Path, Handler: router.Handler, HttpMethod: router.Method}`. -/
def Router.ofRoute (router : RouteInfo) : Router :=
  { RelativePath := router.Path, Handler := router.Handler, HttpMethod := router.Method }

/-- The registry after `n` calls of `GetRouter()`. -/
def afterGetRouterCalls : Nat → Application → Application
  | 0, e => e
  | n + 1, e => afterGetRouterCalls n (Op.run GetRouter e).state

/-- The route list `R` repeated `n` times, as routers. -/
def repeatedRoutes (R : List RouteInfo) : Nat → List Router
  | 0 => []
  | n + 1 => R.map Router.ofRoute ++ repeatedRoutes R n

/-- A registry whose engine is a gin engine with two routes. -/
def ginRegistry : Application :=
  { NewConfig with
    engine := Engine.gin [{ Method := "GET", Path := "/ping", Handler := "main.ping" },
                          { Method := "POST", Path := "/login", Handler := "main.login" }] }

/-! ## The calls of a mutex on its own -/

/-- The call `Lock()` on a mutex: `none` when it cannot be granted (the caller blocks). -/
def RWMutex.Lock (m : RWMutex) : Option RWMutex :=
  if m.writer = false ∧ m.readers = 0 then some { m with writer := true } else none

/-- The call `Unlock()` on a mutex: `none` for the fatal error on an unlocked mutex. -/
def RWMutex.Unlock (m : RWMutex) : Option RWMutex :=
  if m.writer = true then some { m with writer := false } else none

/-- The call `RLock()` on a mutex: `none` when it cannot be granted (the caller blocks). -/
def RWMutex.RLock (m : RWMutex) : Option RWMutex :=
  if m.writer = false then some { m with readers := m.readers + 1 } else none

/-- The call `RUnlock()` on a mutex: `none` for the fatal error on an unlocked mutex. -/
def RWMutex.RUnlock (m : RWMutex) : Option RWMutex :=
  if 0 < m.readers then some { m with readers := m.readers - 1 } else none

end Runtime

/-!
# The logger of go-admin-core

A shallow embedding of `logger/default.go` and `logger/options.go`, and of the level
translation of `plugins/logger/zap/zap.go`.

* The file `logger/level.go`, which declares the type `Level`, its constants and its methods
  `String` and `Enabled`, is not among the sources: these are modelled from the spec.
* A call of a method is a function to `Option`: `none` stands for a call that does not
  complete because a lock cannot be granted.
* The field `written` of `defaultLogger` is not a field of the Go struct: it lists the byte
  strings passed to `opts.Out.Write`, one per call. The error that `Write` may return only
  leads to a message on the standard logger and is left out.
* What a call of `logf` obtains from the runtime (the time, the caller, the texts made by
  `fmt.Sprint` and `fmt.Sprintf`) is given to it as an `Env`.
* The field `Context` of `Options` carries the settings of the plug-ins (encoder, writer,
  caller skip, namespace) and is left out: no level and no field depends on it.
-/

namespace Logger

open Runtime (GoMap RWMutex)

/-- Modelled from the spec: the type `Level` and its six constants, declared in
`logger/level.go`, which is not among the sources. The spec names the levels `Trace`,
`Debug`, `Info`, `Warn`, `Error`, `Fatal`; the constants are named as `default.go`,
`options.go` and `zap.go` use them. -/
inductive Level where
  | TraceLevel
  | DebugLevel
  | InfoLevel
  | WarnLevel
  | ErrorLevel
  | FatalLevel
  deriving DecidableEq, Repr

/-- Modelled from the spec: the position of a level in the total order
`Trace < Debug < Info < Warn < Error < Fatal` of `Level`, declared in `logger/level.go`. -/
def Level.rank : Level → Nat
  | Level.TraceLevel => 0
  | Level.DebugLevel => 1
  | Level.InfoLevel => 2
  | Level.WarnLevel => 3
  | Level.ErrorLevel => 4
  | Level.FatalLevel => 5

/-- Modelled from the spec: the method `Enabled` of `Level`, declared in `logger/level.go`:
with the receiver as the configured threshold, a message at level `lvl` is emitted iff
`lvl >= threshold`. -/
def Level.Enabled (l : Level) (lvl : Level) : Bool := decide (l.rank ≤ lvl.rank)

/-- Modelled from the spec: the method `String` of `Level`, declared in `logger/level.go`:
the name of the level in lower case, the spelling that `logf` compares with in
`level.String() == "error"`. -/
def Level.String : Level → String
  | Level.TraceLevel => "trace"
  | Level.DebugLevel => "debug"
  | Level.InfoLevel => "info"
  | Level.WarnLevel => "warn"
  | Level.ErrorLevel => "error"
  | Level.FatalLevel => "fatal"

/-- A value of type `interface{}` attached to a logger or passed as a message argument. -/
inductive Any where
  | nil
  | str (s : String)
  | int (n : Int)
  | bool (b : Bool)
  deriving DecidableEq, Repr

instance : Inhabited Any := ⟨Any.nil⟩

/-- The text `fmt.Sprintf("%v", v)`. -/
def Any.format : Any → String
  | Any.nil => "<nil>"
  | Any.str s => s
  | Any.int n => toString n
  | Any.bool b => toString b

/-- An `io.Writer`. -/
inductive Writer where
  | stderr
  | stdout
  | other (id : Nat)
  deriving DecidableEq, Repr

/-- Type `type Options struct` of `logger/options.go`, without `Context`. -/
structure Options where
  Level : Level
  Fields : GoMap Any
  Out : Writer
  CallerSkipCount : Int
  Name : String
  deriving DecidableEq, Repr

/-- Type `type Option func(*Options)`. -/
abbrev OptionFunc := Options → Options

/-- Function `func WithFields(fields map[string]interface{}) Option` -/
def WithFields (fields : GoMap Any) : OptionFunc := fun args => { args with Fields := fields }

/-- Function `func WithLevel(level Level) Option` -/
def WithLevel (level : Level) : OptionFunc := fun args => { args with Level := level }

/-- Function `func WithOutput(out io.Writer) Option` -/
def WithOutput (out : Writer) : OptionFunc := fun args => { args with Out := out }

/-- Function `func WithCallerSkipCount(c int) Option` -/
def WithCallerSkipCount (c : Int) : OptionFunc := fun args => { args with CallerSkipCount := c }

/-- Function `func WithName(name string) Option` -/
def WithName (name : String) : OptionFunc := fun args => { args with Name := name }

/-- Function `func DefaultOptions() Options` -/
def DefaultOptions : Options :=
  { Level := Level.InfoLevel, Fields := [], Out := Writer.stderr, CallerSkipCount := 3,
    Name := "" }

/-- Type `type defaultLogger struct`, with the field `written` of the embedding. -/
structure defaultLogger where
  RWMutex : RWMutex
  opts : Options
  written : List String
  deriving DecidableEq, Repr

/-- Method `func (l *defaultLogger) Init(opts ...Option) error`: the error is always nil. -/
def defaultLogger.Init (l : defaultLogger) (opts : List OptionFunc) : defaultLogger :=
  { l with opts := opts.foldl (fun o f => f o) l.opts }

/-- Function `func copyFields(src map[string]interface{}) map[string]interface{}` -/
def copyFields (src : GoMap Any) : GoMap Any :=
  src.foldl (fun dst kv => GoMap.assign dst kv.1 kv.2) []

/-- Method `func (l *defaultLogger) Fields(fields map[string]interface{}) Logger`: the
logger returned is the receiver `l` itself, so the result is the one logger after the call. -/
def defaultLogger.Fields (l : defaultLogger) (fields : GoMap Any) : Option defaultLogger := do
  let m1 ← l.RWMutex.Lock
  let l1 := { l with RWMutex := m1, opts := { l.opts with Fields := copyFields fields } }
  let m2 ← l1.RWMutex.Unlock
  pure { l1 with RWMutex := m2 }

/-- Method `func (l *defaultLogger) Options() Options`: the options returned, and the
logger after the call. -/
def defaultLogger.Options (l : defaultLogger) : Option (Options × defaultLogger) := do
  let m1 ← l.RWMutex.RLock
  let l1 := { l with RWMutex := m1 }
  let opts := { l1.opts with Fields := copyFields l1.opts.Fields }
  let m2 ← l1.RWMutex.RUnlock
  pure (opts, { l1 with RWMutex := m2 })

/-- The result `strings.LastIndexByte(s, c)` on the characters of `s`: `none` stands for
`-1`. The byte sought is `'/'`, a character of one byte, so cutting at its position is the
same on bytes and on characters. -/
def lastIndexByte : List Char → Char → Option Nat
  | [], _ => none
  | x :: xs, c =>
    match lastIndexByte xs c with
    | some i => some (i + 1)
    | none => if x = c then some 0 else none

/-- Function `func logCallerfilePath(loggingFilePath string) string` -/
def logCallerfilePath (loggingFilePath : String) : String :=
  match lastIndexByte loggingFilePath.toList '/' with
  | none => loggingFilePath
  | some idx =>
    match lastIndexByte (loggingFilePath.toList.take idx) '/' with
    | none => loggingFilePath
    | some idx2 => String.mk (loggingFilePath.toList.drop (idx2 + 1))

/-- What one call of `logf` obtains from the runtime and from package `fmt`. -/
structure Env where
  /-- The text `time.Now().Format("2006-01-02 15:04:05.000Z0700")`. -/
  now : String
  /-- The file and line of `runtime.Caller(skip)`, or `none` when `ok` is false. -/
  Caller : Int → Option (String × Nat)
  /-- The text `fmt.Sprint(v...)`. -/
  Sprint : List Any → String
  /-- The text `fmt.Sprintf(format, v...)`. -/
  Sprintf : String → List Any → String

/-- The order of Go strings, which `sort.Strings` sorts by: byte by byte, which for UTF-8 is
character by character. -/
def stringLess (a b : String) : Bool := decide (a.toList < b.toList)

/-- Insertion of a key into a sorted list of keys. -/
def insertSorted (k : String) : List String → List String
  | [] => [k]
  | x :: xs => if stringLess k x then k :: x :: xs else x :: insertSorted k xs

/-- The call `sort.Strings(keys)`. -/
def sortStrings (keys : List String) : List String := keys.foldr insertSorted []

/-- The fields of the record of `logf` (lines 113 to 121): a copy of the attached fields,
to which the attribute `file` is added when the caller is found and the text of the level
is `error`. -/
def recordFields (env : Env) (l : defaultLogger) (level : Level) : GoMap Any :=
  let fields := copyFields l.opts.Fields
  match env.Caller l.opts.CallerSkipCount with
  | some (file, line) =>
    if Level.String level = "error" then
      GoMap.assign fields "file" (Any.str (logCallerfilePath file ++ ":" ++ toString line))
    else fields
  | none => fields

/-- The loop of `logf` over the sorted keys: the first value is appended as it is, each
later one after a space. -/
def metadataLoop (fields : GoMap Any) : List String → Nat → String → String
  | [], _, metadata => metadata
  | k :: keys, i, metadata =>
    if i = 0 then metadataLoop fields keys (i + 1) (metadata ++ Any.format (GoMap.index fields k))
    else metadataLoop fields keys (i + 1) (metadata ++ " " ++ Any.format (GoMap.index fields k))

/-- The message of the record of `logf`: `fmt.Sprint(v...)` when the format is empty,
`fmt.Sprintf(format, v...)` otherwise. -/
def recordMessage (env : Env) (format : String) (v : List Any) : String :=
  if format = "" then env.Sprint v else env.Sprintf format v

/-- Method `func (l *defaultLogger) logf(level Level, format string, v ...interface{})`.
The map `rec.Metadata` that the method also fills is not used afterwards. -/
def defaultLogger.logf (env : Env) (l : defaultLogger) (level : Level) (format : String)
    (v : List Any) : Option defaultLogger :=
  if !(l.opts.Level.Enabled level) then some l
  else do
    let m1 ← l.RWMutex.RLock
    let m2 ← m1.RUnlock
    let l1 := { l with RWMutex := m2 }
    let fields := recordFields env l level
    let message := recordMessage env format v
    let keys := sortStrings (GoMap.keys fields)
    let metadata := metadataLoop fields keys 0 ""
    let name := if l1.opts.Name ≠ "" then "[" ++ l1.opts.Name ++ "]" else ""
    let t := env.now
    let logStr :=
      if name = "" then
        t ++ " " ++ Level.String level ++ " " ++ metadata ++ " " ++ message ++ "\n"
      else
        name ++ " " ++ t ++ " " ++ Level.String level ++ " " ++ metadata ++ " " ++ message
          ++ "\n"
    pure { l1 with written := l1.written ++ [logStr] }

/-- Method `func (l *defaultLogger) Log(level Level, v ...interface{})` -/
def defaultLogger.Log (env : Env) (l : defaultLogger) (level : Level) (v : List Any) :
    Option defaultLogger :=
  defaultLogger.logf env l level "" v

/-- Method `func (l *defaultLogger) Logf(level Level, format string, v ...interface{})` -/
def defaultLogger.Logf (env : Env) (l : defaultLogger) (level : Level) (format : String)
    (v : List Any) : Option defaultLogger :=
  defaultLogger.logf env l level format v

/-- Function `func NewLogger(opts ...Option) Logger`: `Init` returns no error, so nothing is
logged. -/
def NewLogger (opts : List OptionFunc) : defaultLogger :=
  defaultLogger.Init
    { RWMutex := Runtime.RWMutex.free,
      opts := { Level := Level.InfoLevel, Fields := [], Out := Writer.stderr,
                CallerSkipCount := 3, Name := "" },
      written := [] } opts

/-- The line that the spec describes: `[name] timestamp level metadata message`, where the
name and its trailing space are left out when the name is empty and the metadata is the
values joined by single spaces. -/
def specLine (name t lv : String) (values : List String) (message : String) : String :=
  (if name = "" then "" else "[" ++ name ++ "] ") ++ t ++ " " ++ lv ++ " " ++
    " ".intercalate values ++ " " ++ message ++ "\n"

/-- A runtime for the examples: a fixed time, a caller in `service/user.go`, `fmt.Sprint`
on string operands (their concatenation) and `fmt.Sprintf` on a format without verbs (the
format, followed by the report of the extra operands when there are any). -/
def sampleEnv : Env :=
  { now := "2026-01-02 03:04:05.000+0000",
    Caller := fun _ => some ("/go/src/app/service/user.go", 42),
    Sprint := fun v => String.join (v.map Any.format),
    Sprintf := fun format v =>
      if v = [] then format
      else format ++ "%!(EXTRA " ++ ", ".intercalate (v.map (fun a => "string=" ++ Any.format a))
        ++ ")" }

/-- A default logger with one attached field. -/
def fieldsLogger : defaultLogger := NewLogger [WithFields [("a", Any.int 1)]]

end Logger

/-!
# The zap backend

The level translation and the level gate of `plugins/logger/zap/zap.go`. Of zap itself only
the levels and the rule of its core are needed: an entry is written iff its level is at
least the level the core was built with.
-/

namespace Zap

open Runtime (GoMap RWMutex)
open Logger (Level Any Options OptionFunc)

/-- The levels of `zapcore.Level` (`DebugLevel = -1` up to `FatalLevel = 5`). -/
inductive ZapLevel where
  | DebugLevel
  | InfoLevel
  | WarnLevel
  | ErrorLevel
  | DPanicLevel
  | PanicLevel
  | FatalLevel
  deriving DecidableEq, Repr

/-- The number of a `zapcore.Level`. -/
def ZapLevel.toInt : ZapLevel → Int
  | ZapLevel.DebugLevel => -1
  | ZapLevel.InfoLevel => 0
  | ZapLevel.WarnLevel => 1
  | ZapLevel.ErrorLevel => 2
  | ZapLevel.DPanicLevel => 3
  | ZapLevel.PanicLevel => 4
  | ZapLevel.FatalLevel => 5

/-- The rule of a zap core built with the level `threshold`: an entry at level `lvl` is
written iff `lvl >= threshold`. -/
def ZapLevel.Enabled (threshold lvl : ZapLevel) : Bool := decide (threshold.toInt ≤ lvl.toInt)

/-- Function `func loggerToZapLevel(level logger.Level) zapcore.Level`. The `default` case of
the switch is not reached by any of the six levels. -/
def loggerToZapLevel : Level → ZapLevel
  | Level.TraceLevel => ZapLevel.DebugLevel
  | Level.DebugLevel => ZapLevel.DebugLevel
  | Level.InfoLevel => ZapLevel.InfoLevel
  | Level.WarnLevel => ZapLevel.WarnLevel
  | Level.ErrorLevel => ZapLevel.ErrorLevel
  | Level.FatalLevel => ZapLevel.FatalLevel

/-- Function `func zapToLoggerLevel(level zapcore.Level) logger.Level` -/
def zapToLoggerLevel : ZapLevel → Level
  | ZapLevel.DebugLevel => Level.DebugLevel
  | ZapLevel.InfoLevel => Level.InfoLevel
  | ZapLevel.WarnLevel => Level.WarnLevel
  | ZapLevel.ErrorLevel => Level.ErrorLevel
  | ZapLevel.FatalLevel => Level.FatalLevel
  | _ => Level.InfoLevel

/-- Type `type zaplog struct`. Of `cfg` and `zap` the model keeps the level the core is
built with (`cfg.Level`) and the entries the core has written, each with its level and its
message. -/
structure zaplog where
  level : ZapLevel
  entries : List (ZapLevel × String)
  opts : Options
  RWMutex : RWMutex
  fields : GoMap Any
  deriving DecidableEq, Repr

/-- Method `func (l *zaplog) Init(opts ...logger.Option) error`: the options are applied;
the level of the core is a new atomic level (`InfoLevel`), set to the translation of
`opts.Level` when that is not `InfoLevel`; the fields start empty. The error is always
nil. -/
def zaplog.Init (l : zaplog) (opts : List OptionFunc) : zaplog :=
  let o := opts.foldl (fun o f => f o) l.opts
  let zapLevel :=
    if o.Level ≠ Level.InfoLevel then loggerToZapLevel o.Level else ZapLevel.InfoLevel
  { l with opts := o, level := zapLevel, entries := [], fields := [] }

/-- Function `func NewLogger(opts ...logger.Option) (logger.Logger, error)` -/
def NewLogger (opts : List OptionFunc) : zaplog :=
  zaplog.Init
    { level := ZapLevel.InfoLevel, entries := [],
      opts := { Level := Level.InfoLevel, Fields := [], Out := Logger.Writer.stderr,
                CallerSkipCount := 0, Name := "" },
      RWMutex := Runtime.RWMutex.free, fields := [] } opts

/-- One of the calls `l.zap.Debug(msg, ...)`, `l.zap.Info(msg, ...)` and so on: the core
writes the entry iff its level is enabled. -/
def zaplog.write (l : zaplog) (lvl : ZapLevel) (msg : String) : zaplog :=
  if l.level.Enabled lvl then { l with entries := l.entries ++ [(lvl, msg)] } else l

/-- Method `func (l *zaplog) Log(level logger.Level, args ...interface{})`, with the text
`msg` of `fmt.Sprint(args...)`: the switch on the translated level calls the zap method of
that level. -/
def zaplog.Log (l : zaplog) (level : Level) (msg : String) : Option zaplog := do
  let m1 ← l.RWMutex.RLock
  let l1 := { l with RWMutex := m1 }
  let l2 :=
    match loggerToZapLevel level with
    | ZapLevel.DebugLevel => l1.write ZapLevel.DebugLevel msg
    | ZapLevel.InfoLevel => l1.write ZapLevel.InfoLevel msg
    | ZapLevel.WarnLevel => l1.write ZapLevel.WarnLevel msg
    | ZapLevel.ErrorLevel => l1.write ZapLevel.ErrorLevel msg
    | ZapLevel.FatalLevel => l1.write ZapLevel.FatalLevel msg
    | _ => l1
  let m2 ← l2.RWMutex.RUnlock
  pure { l2 with RWMutex := m2 }

/-- Whether a zap-backed logger made with `WithLevel(T)` emits a message logged at the
level `L`. -/
def emits (T L : Level) : Bool :=
  match zaplog.Log (NewLogger [Logger.WithLevel T]) L "msg" with
  | some l => !l.entries.isEmpty
  | none => false

end Zap

namespace Runtime

/-! ## Lemmas on maps -/

theorem GoMap.find_assign_same {V : Type} (m : GoMap V) (k : String) (v : V) :
    GoMap.find (GoMap.assign m k v) k = some v := by
  induction m with
  | nil => simp [GoMap.assign, GoMap.find]
  | cons p rest ih =>
    obtain ⟨k1, v1⟩ := p
    by_cases h : k1 = k <;> simp [GoMap.assign, GoMap.find, h, ih]

theorem GoMap.find_assign_other {V : Type} (m : GoMap V) (k u : String) (v : V)
    (h : u ≠ k) : GoMap.find (GoMap.assign m k v) u = GoMap.find m u := by
  induction m with
  | nil => simp [GoMap.assign, GoMap.find, Ne.symm h]
  | cons p rest ih =>
    obtain ⟨k1, v1⟩ := p
    by_cases h1 : k1 = k
    · subst h1; simp [GoMap.assign, GoMap.find, Ne.symm h]
    · simp [GoMap.assign, GoMap.find, h1, ih]

theorem GoMap.find_delete_same {V : Type} (m : GoMap V) (k : String) :
    GoMap.find (GoMap.delete m k) k = none := by
  induction m with
  | nil => simp [GoMap.delete, GoMap.find]
  | cons p rest ih =>
    obtain ⟨k1, v1⟩ := p
    by_cases h : k1 = k <;> simp [GoMap.delete, GoMap.find, h, ih]

theorem GoMap.find_delete_other {V : Type} (m : GoMap V) (k u : String) (h : u ≠ k) :
    GoMap.find (GoMap.delete m k) u = GoMap.find m u := by
  induction m with
  | nil => simp [GoMap.delete, GoMap.find]
  | cons p rest ih =>
    obtain ⟨k1, v1⟩ := p
    by_cases h1 : k1 = k
    · subst h1; simp [GoMap.delete, GoMap.find, Ne.symm h, ih]
    · simp only [GoMap.delete, if_neg h1, GoMap.find, ih]

theorem GoMap.index_assign_same {V : Type} [Inhabited V] (m : GoMap V) (k : String) (v : V) :
    GoMap.index (GoMap.assign m k v) k = v := by
  simp [GoMap.index, GoMap.find_assign_same]

theorem GoMap.index_assign_other {V : Type} [Inhabited V] (m : GoMap V) (k u : String)
    (v : V) (h : u ≠ k) : GoMap.index (GoMap.assign m k v) u = GoMap.index m u := by
  simp [GoMap.index, GoMap.find_assign_other m k u v h]

theorem wildcardLookup_bound (m : GoMap Value) (t : String) (r : Value)
    (h : GoMap.find m "*" = some r) : wildcardLookup m t = r := by
  simp [wildcardLookup, h]

/-! ## What each operation does on a registry whose lock is free -/

theorem Op.run_bind {α β : Type} (m : Op α) (f : α → Op β) (e : Application) :
    Op.run (m >>= f) e =
      match Op.run m e with
      | Outcome.ok a e1 => Op.run (f a) e1
      | Outcome.fault x e1 => Outcome.fault x e1 := rfl

theorem SetDefaultTenant_run (e : Application) (t : String) (h : e.mux = RWMutex.free) :
    Op.run (SetDefaultTenant t) e = Outcome.ok ()
      { e with defaultTenant := t,
               trace := e.trace ++
                 [{ field := Field.defaultTenant, write := true, mux := RWMutex.held }] } := by
  cases e
  simp only [RWMutex.free] at h
  subst h
  rfl

theorem GetDefaultTenant_run (e : Application) (h : e.mux = RWMutex.free) :
    Op.run GetDefaultTenant e = Outcome.ok e.defaultTenant
      { e with trace := e.trace ++
                 [{ field := Field.defaultTenant, write := false,
                    mux := { writer := false, readers := 1 } }] } := by
  cases e
  simp only [RWMutex.free] at h
  subst h
  rfl

theorem SetDbByTenant_run (e : Application) (t : String) (db : DB)
    (h : e.mux = RWMutex.free) :
    Op.run (SetDbByTenant t db) e = Outcome.ok ()
      { e with dbs := GoMap.assign e.dbs t db,
               trace := e.trace ++
                 [{ field := Field.dbs, write := true, mux := RWMutex.held }] } := by
  cases e
  simp only [RWMutex.free] at h
  subst h
  rfl

theorem GetDbByTenant_run (e : Application) (t : String) (h : e.mux = RWMutex.free) :
    Op.run (GetDbByTenant t) e = Outcome.ok (wildcardLookup e.dbs t)
      { e with trace := e.trace ++
                 [{ field := Field.dbs, write := false, mux := RWMutex.held }] } := by
  cases e
  simp only [RWMutex.free] at h
  subst h
  rfl

theorem GetAllDb_run (e : Application) (h : e.mux = RWMutex.free) :
    Op.run GetAllDb e = Outcome.ok e.dbs
      { e with trace := e.trace ++
                 [{ field := Field.dbs, write := false, mux := RWMutex.held }] } := by
  cases e
  simp only [RWMutex.free] at h
  subst h
  rfl

theorem SetCasbinByTenant_run (e : Application) (t : String) (c : Enforcer)
    (h : e.mux = RWMutex.free) :
    Op.run (SetCasbinByTenant t c) e = Outcome.ok ()
      { e with casbins := GoMap.assign e.casbins t c,
               trace := e.trace ++
                 [{ field := Field.casbins, write := true, mux := RWMutex.held }] } := by
  cases e
  simp only [RWMutex.free] at h
  subst h
  rfl

theorem GetCasbinByTenant_run (e : Application) (t : String) (h : e.mux = RWMutex.free) :
    Op.run (GetCasbinByTenant t) e = Outcome.ok (wildcardLookup e.casbins t)
      { e with trace := e.trace ++
                 [{ field := Field.casbins, write := false, mux := RWMutex.held }] } := by
  cases e
  simp only [RWMutex.free] at h
  subst h
  rfl

theorem SetCrontabByTenant_run (e : Application) (t : String) (c : Cron)
    (h : e.mux = RWMutex.free) :
    Op.run (SetCrontabByTenant t c) e = Outcome.ok ()
      { e with crontab := GoMap.assign e.crontab t c,
               trace := e.trace ++
                 [{ field := Field.crontab, write := true, mux := RWMutex.held }] } := by
  cases e
  simp only [RWMutex.free] at h
  subst h
  rfl

theorem GetCrontabByTenant_run (e : Application) (t : String) (h : e.mux = RWMutex.free) :
    Op.run (GetCrontabByTenant t) e = Outcome.ok (wildcardLookup e.crontab t)
      { e with trace := e.trace ++
                 [{ field := Field.crontab, write := false, mux := RWMutex.held }] } := by
  cases e
  simp only [RWMutex.free] at h
  subst h
  rfl

theorem SetCasbinExcludeByTenant_run (e : Application) (t : String) (l : Value)
    (h : e.mux = RWMutex.free) :
    Op.run (SetCasbinExcludeByTenant t l) e = Outcome.ok ()
      { e with casbinExclude := GoMap.assign e.casbinExclude t l,
               trace := e.trace ++
                 [{ field := Field.casbinExclude, write := true, mux := RWMutex.held }] } := by
  cases e
  simp only [RWMutex.free] at h
  subst h
  rfl

theorem GetCasbinExcludeByTenant_run (e : Application) (t : String)
    (h : e.mux = RWMutex.free) :
    Op.run (GetCasbinExcludeByTenant t) e = Outcome.ok (wildcardLookup e.casbinExclude t)
      { e with trace := e.trace ++
                 [{ field := Field.casbinExclude, write := false, mux := RWMutex.held }] } := by
  cases e
  simp only [RWMutex.free] at h
  subst h
  rfl

theorem SetAppByTenant_run (e : Application) (t : String) (a : Value)
    (h : e.mux = RWMutex.free) :
    Op.run (SetAppByTenant t a) e = Outcome.ok ()
      { e with app := GoMap.assign e.app t a,
               trace := e.trace ++
                 [{ field := Field.app, write := true, mux := RWMutex.held }] } := by
  cases e
  simp only [RWMutex.free] at h
  subst h
  rfl

theorem GetAppByTenant_run (e : Application) (t : String) (h : e.mux = RWMutex.free) :
    Op.run (GetAppByTenant t) e = Outcome.ok (wildcardLookup e.app t)
      { e with trace := e.trace ++
                 [{ field := Field.app, write := false,
                    mux := { writer := false, readers := 1 } }] } := by
  cases e
  simp only [RWMutex.free] at h
  subst h
  rfl

theorem GetDb_run (e : Application) (h : e.mux = RWMutex.free) :
    Op.run GetDb e = Outcome.ok (wildcardLookup e.dbs e.defaultTenant)
      { e with trace := e.trace ++
                 [{ field := Field.defaultTenant, write := false,
                    mux := { writer := false, readers := 1 } },
                  { field := Field.dbs, write := false, mux := RWMutex.held }] } := by
  cases e
  simp only [RWMutex.free] at h
  subst h
  simp [GetDb, Op.run_bind, GetDefaultTenant_run, GetDbByTenant_run, RWMutex.free]

theorem GetCasbin_run (e : Application) (h : e.mux = RWMutex.free) :
    Op.run GetCasbin e = Outcome.ok (wildcardLookup e.casbins e.defaultTenant)
      { e with trace := e.trace ++
                 [{ field := Field.defaultTenant, write := false,
                    mux := { writer := false, readers := 1 } },
                  { field := Field.casbins, write := false, mux := RWMutex.held }] } := by
  cases e
  simp only [RWMutex.free] at h
  subst h
  simp [GetCasbin, Op.run_bind, GetDefaultTenant_run, GetCasbinByTenant_run, RWMutex.free]

theorem GetCrontab_run (e : Application) (h : e.mux = RWMutex.free) :
    Op.run GetCrontab e = Outcome.ok (wildcardLookup e.crontab e.defaultTenant)
      { e with trace := e.trace ++
                 [{ field := Field.defaultTenant, write := false,
                    mux := { writer := false, readers := 1 } },
                  { field := Field.crontab, write := false, mux := RWMutex.held }] } := by
  cases e
  simp only [RWMutex.free] at h
  subst h
  simp [GetCrontab, Op.run_bind, GetDefaultTenant_run, GetCrontabByTenant_run, RWMutex.free]

theorem SetDb_run (e : Application) (db : DB) (h : e.mux = RWMutex.free) :
    Op.run (SetDb db) e = Outcome.fault Fault.deadlock { e with mux := RWMutex.held } := by
  cases e
  simp only [RWMutex.free] at h
  subst h
  rfl

theorem SetCasbin_run (e : Application) (c : Enforcer) (h : e.mux = RWMutex.free) :
    Op.run (SetCasbin c) e = Outcome.fault Fault.deadlock { e with mux := RWMutex.held } := by
  cases e
  simp only [RWMutex.free] at h
  subst h
  rfl

theorem SetCrontab_run (e : Application) (c : Cron) (h : e.mux = RWMutex.free) :
    Op.run (SetCrontab c) e = Outcome.fault Fault.deadlock { e with mux := RWMutex.held } := by
  cases e
  simp only [RWMutex.free] at h
  subst h
  rfl

theorem SetApp_run (e : Application) (a : Value) (h : e.mux = RWMutex.free) :
    Op.run (SetApp a) e = Outcome.fault Fault.deadlock { e with mux := RWMutex.held } := by
  cases e
  simp only [RWMutex.free] at h
  subst h
  rfl

theorem SetCasbinExclude_run (e : Application) (l : Value) (h : e.mux = RWMutex.free) :
    Op.run (SetCasbinExclude l) e =
      Outcome.fault Fault.deadlock { e with mux := RWMutex.held } := by
  cases e
  simp only [RWMutex.free] at h
  subst h
  rfl

theorem Heap.update_append_length (h : Heap) (f : GoMap Value → GoMap Value) (b : GoMap Value) :
    Heap.update (h ++ [b]) h.length f = h ++ [f b] := by
  induction h with
  | nil => rfl
  | cons x rest ih => simp [Heap.update, ih]

theorem SetConfigValueByTenant_run_absent (e : Application) (t k : String) (v : Value)
    (h : e.mux = RWMutex.free) (hb : GoMap.find e.configs t = none) :
    Op.run (SetConfigValueByTenant t k v) e = Outcome.ok ()
      { e with heap := e.heap ++ [[(k, v)]],
               configs := GoMap.assign e.configs t (Config.ref e.heap.length),
               trace := e.trace ++
                 [{ field := Field.configs, write := false, mux := RWMutex.held },
                  { field := Field.configs, write := true, mux := RWMutex.held },
                  { field := Field.configs, write := false, mux := RWMutex.held },
                  { field := Field.configs, write := true, mux := RWMutex.held }] } := by
  cases e
  simp only [RWMutex.free] at h
  subst h
  simp only at hb
  simp [SetConfigValueByTenant, Op.run, bind, Op.bind, Lock, load, store, Unlock, hb,
    GoMap.index_assign_same, Heap.update_append_length, GoMap.assign, RWMutex.held, pure, Op.pure]

theorem SetConfigValueByTenant_run_nil (e : Application) (t k : String) (v : Value)
    (h : e.mux = RWMutex.free) (hb : GoMap.find e.configs t = some Config.nil) :
    Op.run (SetConfigValueByTenant t k v) e = Outcome.fault Fault.nilMapAssign
      { e with trace := e.trace ++
                 [{ field := Field.configs, write := false, mux := RWMutex.held },
                  { field := Field.configs, write := false, mux := RWMutex.held }] } := by
  cases e
  simp only [RWMutex.free] at h
  subst h
  simp only at hb
  simp [SetConfigValueByTenant, Op.run, bind, Op.bind, Lock, load, store, Unlock, hb,
    GoMap.index, RWMutex.held, pure, Op.pure, Op.raise]

theorem SetConfigValueByTenant_run_ref (e : Application) (t k : String) (v : Value) (a : Nat)
    (h : e.mux = RWMutex.free) (hb : GoMap.find e.configs t = some (Config.ref a)) :
    Op.run (SetConfigValueByTenant t k v) e = Outcome.ok ()
      { e with heap := Heap.update e.heap a (fun b => GoMap.assign b k v),
               trace := e.trace ++
                 [{ field := Field.configs, write := false, mux := RWMutex.held },
                  { field := Field.configs, write := false, mux := RWMutex.held },
                  { field := Field.configs, write := true, mux := RWMutex.held }] } := by
  cases e
  simp only [RWMutex.free] at h
  subst h
  simp only at hb
  simp [SetConfigValueByTenant, Op.run, bind, Op.bind, Lock, load, store, Unlock, hb,
    GoMap.index, RWMutex.held, pure, Op.pure, Op.raise]

theorem SetMiddleware_run (e : Application) (t : String) (m : Value)
    (h : e.mux = RWMutex.free) :
    Op.run (SetMiddleware t m) e = Outcome.ok ()
      { e with middlewares := GoMap.assign e.middlewares t m,
               trace := e.trace ++
                 [{ field := Field.middlewares, write := true, mux := RWMutex.held }] } := by
  cases e
  simp only [RWMutex.free] at h
  subst h
  rfl

theorem GetMiddleware_run (e : Application) (t : String) (h : e.mux = RWMutex.free) :
    Op.run (GetMiddleware t) e = Outcome.ok (GoMap.index e.middlewares t)
      { e with trace := e.trace ++
                 [{ field := Field.middlewares, write := false, mux := RWMutex.held }] } := by
  cases e
  simp only [RWMutex.free] at h
  subst h
  rfl

theorem SetConfigByTenant_run (e : Application) (t : String) (c : Config)
    (h : e.mux = RWMutex.free) :
    Op.run (SetConfigByTenant t c) e = Outcome.ok ()
      { e with configs := GoMap.assign e.configs t c,
               trace := e.trace ++
                 [{ field := Field.configs, write := true, mux := RWMutex.held }] } := by
  cases e
  simp only [RWMutex.free] at h
  subst h
  rfl

theorem GetConfigByTenant_run (e : Application) (t : String) (h : e.mux = RWMutex.free) :
    Op.run (GetConfigByTenant t) e = Outcome.ok (GoMap.index e.configs t)
      { e with trace := e.trace ++
                 [{ field := Field.configs, write := false, mux := RWMutex.held }] } := by
  cases e
  simp only [RWMutex.free] at h
  subst h
  rfl

theorem GetConfigValueByTenant_run (e : Application) (t k : String)
    (h : e.mux = RWMutex.free) :
    Op.run (GetConfigValueByTenant t k) e =
      Outcome.ok (Heap.read e.heap (GoMap.index e.configs t) k)
      { e with trace := e.trace ++
                 [{ field := Field.configs, write := false, mux := RWMutex.held }] } := by
  cases e
  simp only [RWMutex.free] at h
  subst h
  rfl

theorem deleteFromAllDb_run (e : Application) (k : String) (h : e.mux = RWMutex.free) :
    Op.run (deleteFromAllDb k) e = Outcome.ok ()
      { e with dbs := GoMap.delete e.dbs k,
               trace := e.trace ++
                 [{ field := Field.dbs, write := false, mux := RWMutex.held },
                  { field := Field.dbs, write := true, mux := RWMutex.free }] } := by
  cases e
  simp only [RWMutex.free] at h
  subst h
  simp [deleteFromAllDb, Op.run_bind, GetAllDb_run, RWMutex.free]
  simp [Op.run, store]

theorem SetHandler_run (e : Application) (r : Func) (h : e.mux = RWMutex.free) :
    Op.run (SetHandler r) e = Outcome.fault Fault.deadlock { e with mux := RWMutex.held } := by
  cases e
  simp only [RWMutex.free] at h
  subst h
  rfl

theorem GetHandler_run (e : Application) (h : e.mux = RWMutex.free) :
    Op.run GetHandler e = Outcome.fault Fault.deadlock { e with mux := RWMutex.held } := by
  cases e
  simp only [RWMutex.free] at h
  subst h
  rfl

theorem GetConfig_run (e : Application) (h : e.mux = RWMutex.free) :
    Op.run GetConfig e = Outcome.fault Fault.deadlock { e with mux := RWMutex.held } := by
  cases e
  simp only [RWMutex.free] at h
  subst h
  rfl

theorem SetConfigValueByTenant_safe (e : Application) (t k : String) (v : Value)
    (h : e.mux = RWMutex.free) :
    (Op.run (SetConfigValueByTenant t k v) e).fault? ≠ some Fault.deadlock ∧
    (Op.run (SetConfigValueByTenant t k v) e).state.mux = RWMutex.free ∧
    ∃ tr, (Op.run (SetConfigValueByTenant t k v) e).state.trace = e.trace ++ tr ∧
      ∀ a ∈ tr, a.guarded = true := by
  cases hb : GoMap.find e.configs t with
  | none =>
    rw [SetConfigValueByTenant_run_absent e t k v h hb]
    refine ⟨by simp [Outcome.fault?], h, _, rfl, ?_⟩
    simp [Access.guarded, RWMutex.held]
  | some c =>
    cases c with
    | nil =>
      rw [SetConfigValueByTenant_run_nil e t k v h hb]
      refine ⟨by simp [Outcome.fault?], h, _, rfl, ?_⟩
      simp [Access.guarded, RWMutex.held]
    | ref a =>
      rw [SetConfigValueByTenant_run_ref e t k v a h hb]
      refine ⟨by simp [Outcome.fault?], h, _, rfl, ?_⟩
      simp [Access.guarded, RWMutex.held]

theorem SetConfigValue_safe (e : Application) (k : String) (v : Value)
    (h : e.mux = RWMutex.free) :
    (Op.run (SetConfigValue k v) e).fault? ≠ some Fault.deadlock ∧
    (Op.run (SetConfigValue k v) e).state.mux = RWMutex.free ∧
    ∃ tr, (Op.run (SetConfigValue k v) e).state.trace = e.trace ++ tr ∧
      ∀ a ∈ tr, a.guarded = true := by
  have hs := SetConfigValueByTenant_safe
    { e with trace := e.trace ++
               [{ field := Field.defaultTenant, write := false,
                  mux := { writer := false, readers := 1 } }] } e.defaultTenant k v h
  have hrun : Op.run (SetConfigValue k v) e = Op.run (SetConfigValueByTenant e.defaultTenant k v)
      { e with trace := e.trace ++
               [{ field := Field.defaultTenant, write := false,
                  mux := { writer := false, readers := 1 } }] } := by
    simp [SetConfigValue, Op.run_bind, GetDefaultTenant_run, h]
  rw [hrun]
  obtain ⟨h1, h2, tr, h3, h4⟩ := hs
  refine ⟨h1, h2, Access.mk Field.defaultTenant false (RWMutex.mk false 1) :: tr, ?_, ?_⟩
  · rw [h3]; simp
  · intro a ha
    rcases List.mem_cons.mp ha with ha | ha
    · subst ha; simp [Access.guarded]
    · exact h4 a ha

theorem call_exec_classified (e : Application) (c : Call) (h : e.mux = RWMutex.free) :
    (c.readsDefaultTenantUnderLock = true →
      c.exec e = Outcome.fault Fault.deadlock { e with mux := RWMutex.held }) ∧
    (c.readsDefaultTenantUnderLock = false →
      (c.exec e).fault? ≠ some Fault.deadlock ∧ (c.exec e).state.mux = RWMutex.free ∧
      ∃ tr, (c.exec e).state.trace = e.trace ++ tr ∧
        (c.takesNoLock = false → ∀ a ∈ tr, a.guarded = true) ∧
        (c.takesNoLock = true → tr ≠ [] ∧ ∀ a ∈ tr, a.mux = RWMutex.free)) := by
  cases c
  case SetConfigValueByTenant t k v =>
    obtain ⟨h1, h2, tr, h3, h4⟩ := SetConfigValueByTenant_safe e t k v h
    refine ⟨fun hc => by simp [Call.readsDefaultTenantUnderLock] at hc, fun _ => ?_⟩
    simp only [Call.exec, Op.run] at *
    cases hr : Runtime.SetConfigValueByTenant t k v e <;> rw [hr] at h1 h2 h3 <;>
      exact ⟨h1, h2, tr, h3, fun _ => h4, fun hc => by simp [Call.takesNoLock] at hc⟩
  case SetConfigValue k v =>
    obtain ⟨h1, h2, tr, h3, h4⟩ := SetConfigValue_safe e k v h
    refine ⟨fun hc => by simp [Call.readsDefaultTenantUnderLock] at hc, fun _ => ?_⟩
    simp only [Call.exec, Op.run] at *
    cases hr : Runtime.SetConfigValue k v e <;> rw [hr] at h1 h2 h3 <;>
      exact ⟨h1, h2, tr, h3, fun _ => h4, fun hc => by simp [Call.takesNoLock] at hc⟩
  all_goals
    cases e
    simp only [RWMutex.free] at h
    subst h
    simp [Call.readsDefaultTenantUnderLock, Call.takesNoLock, Call.exec, Outcome.forget,
      Outcome.fault?, Outcome.state, Access.guarded, RWMutex.held, RWMutex.free,
      Runtime.SetDbByTenant, Runtime.SetDb, Runtime.GetDbByTenant, Runtime.GetDb,
      Runtime.GetAllDb, Runtime.SetBefore, Runtime.GetBefore, Runtime.SetAppByTenant,
      Runtime.SetApp, Runtime.GetApp, Runtime.GetAppByTenant, Runtime.getFromMap,
      Runtime.SetCasbinExcludeByTenant, Runtime.SetCasbinExclude, Runtime.GetCasbinExclude,
      Runtime.GetCasbinExcludeByTenant, Runtime.SetCasbinByTenant, Runtime.SetCasbin,
      Runtime.GetAllCasbin, Runtime.GetCasbin, Runtime.GetCasbinByTenant,
      Runtime.SetDefaultTenant, Runtime.GetDefaultTenant, Runtime.SetCrontabByTenant,
      Runtime.SetCrontab, Runtime.GetAllCrontab, Runtime.GetCrontab,
      Runtime.GetCrontabByTenant, Runtime.SetMiddleware, Runtime.GetAllMiddleware,
      Runtime.GetMiddleware, Runtime.SetHandler, Runtime.SetHandlerByTenant,
      Runtime.GetAllHandler, Runtime.GetHandler, Runtime.GetHandlerByTenant,
      Runtime.SetConfigByTenant, Runtime.GetConfigValueByTenant, Runtime.GetConfigByTenant,
      Runtime.GetConfig, Runtime.GetConfigValue, Runtime.SetAppRouters, Runtime.GetAppRouters,
      bind, Op.bind, pure, Op.pure, Lock, Unlock, RLock, RUnlock, load, store]

theorem callbackListCall_classified (c : Call) (h : c.isCallbackListCall = true) :
    c.takesNoLock = true ∧ c.readsDefaultTenantUnderLock = false := by
  cases c <;> simp_all [Call.isCallbackListCall, Call.takesNoLock,
    Call.readsDefaultTenantUnderLock]

/-! ## The claims -/

/-- Claim C1 (wildcard precedence). On a registry whose lock is free, whenever the
database, casbin, crontab, casbin-exclude or app map holds a binding `r` under `"*"`, the
tenant-scoped getter of that store returns `r` for every tenant `T`. In particular, for a
tenant `T` other than `"*"`, it makes no difference whether the binding of `T` is set after
or before the wildcard one: the getter returns the wildcard binding in both orders. -/
theorem wildcard_precedence (e : Application) (T : String) (r : Value)
    (hfree : e.mux = RWMutex.free) :
    (GoMap.find e.dbs "*" = some r → (Op.run (GetDbByTenant T) e).ret? = some r) ∧
    (GoMap.find e.casbins "*" = some r → (Op.run (GetCasbinByTenant T) e).ret? = some r) ∧
    (GoMap.find e.crontab "*" = some r → (Op.run (GetCrontabByTenant T) e).ret? = some r) ∧
    (GoMap.find e.casbinExclude "*" = some r →
      (Op.run (GetCasbinExcludeByTenant T) e).ret? = some r) ∧
    (GoMap.find e.app "*" = some r → (Op.run (GetAppByTenant T) e).ret? = some r) ∧
    (∀ b : Value, T ≠ "*" →
      (Op.run (do SetDbByTenant "*" r; SetDbByTenant T b; GetDbByTenant T) e).ret? = some r ∧
      (Op.run (do SetDbByTenant T b; SetDbByTenant "*" r; GetDbByTenant T) e).ret? = some r ∧
      (Op.run (do SetCasbinByTenant "*" r; SetCasbinByTenant T b; GetCasbinByTenant T) e).ret?
        = some r ∧
      (Op.run (do SetCasbinByTenant T b; SetCasbinByTenant "*" r; GetCasbinByTenant T) e).ret?
        = some r ∧
      (Op.run (do SetCrontabByTenant "*" r; SetCrontabByTenant T b; GetCrontabByTenant T) e).ret?
        = some r ∧
      (Op.run (do SetCrontabByTenant T b; SetCrontabByTenant "*" r; GetCrontabByTenant T) e).ret?
        = some r ∧
      (Op.run (do SetCasbinExcludeByTenant "*" r; SetCasbinExcludeByTenant T b; GetCasbinExcludeByTenant T) e).ret?
        = some r ∧
      (Op.run (do SetCasbinExcludeByTenant T b; SetCasbinExcludeByTenant "*" r; GetCasbinExcludeByTenant T) e).ret?
        = some r ∧
      (Op.run (do SetAppByTenant "*" r; SetAppByTenant T b; GetAppByTenant T) e).ret?
        = some r ∧
      (Op.run (do SetAppByTenant T b; SetAppByTenant "*" r; GetAppByTenant T) e).ret?
        = some r) := by
  refine ⟨?_, ?_, ?_, ?_, ?_, ?_⟩
  · intro h
    simp [GetDbByTenant_run, hfree, Outcome.ret?, wildcardLookup_bound _ T r h]
  · intro h
    simp [GetCasbinByTenant_run, hfree, Outcome.ret?, wildcardLookup_bound _ T r h]
  · intro h
    simp [GetCrontabByTenant_run, hfree, Outcome.ret?, wildcardLookup_bound _ T r h]
  · intro h
    simp [GetCasbinExcludeByTenant_run, hfree, Outcome.ret?, wildcardLookup_bound _ T r h]
  · intro h
    simp [GetAppByTenant_run, hfree, Outcome.ret?, wildcardLookup_bound _ T r h]
  · intro b hT
    have hT2 : ("*" : String) ≠ T := Ne.symm hT
    simp [Op.run_bind, SetDbByTenant_run, GetDbByTenant_run, SetCasbinByTenant_run,
      GetCasbinByTenant_run, SetCrontabByTenant_run, GetCrontabByTenant_run,
      SetCasbinExcludeByTenant_run, GetCasbinExcludeByTenant_run, SetAppByTenant_run,
      GetAppByTenant_run, hfree, wildcardLookup, Outcome.ret?, GoMap.find_assign_same,
      GoMap.find_assign_other, hT2]

theorem wildcard_precedence_witness :
    (Op.run (GetDbByTenant "acme") wildcardRegistry).ret? = some (Value.obj 1) ∧
    (Op.run (GetCasbinByTenant "acme") wildcardRegistry).ret? = some (Value.obj 1) ∧
    (Op.run (GetCrontabByTenant "acme") wildcardRegistry).ret? = some (Value.obj 1) ∧
    (Op.run (GetCasbinExcludeByTenant "acme") wildcardRegistry).ret? = some (Value.obj 1) ∧
    (Op.run (GetAppByTenant "acme") wildcardRegistry).ret? = some (Value.obj 1) ∧
    (Op.run (do SetDbByTenant "*" (Value.obj 1); SetDbByTenant "acme" (Value.obj 2); GetDbByTenant "acme") wildcardRegistry).ret?
      = some (Value.obj 1) :=
  have h := wildcard_precedence wildcardRegistry "acme" (Value.obj 1) (by decide)
  ⟨h.1 (by decide), h.2.1 (by decide), h.2.2.1 (by decide), h.2.2.2.1 (by decide),
    h.2.2.2.2.1 (by decide), (h.2.2.2.2.2 (Value.obj 2) (by decide)).1⟩

/-- Claim C2, as stated, fails: on a registry whose database map binds `"*"` to `dbA`,
`SetDbByTenant("acme", dbB)` followed by `GetDbByTenant("acme")` returns `dbA`, not the
handle `dbB` that was just set. -/
theorem set_then_get_db_shadowed :
    (Op.run (do SetDbByTenant "acme" (Value.obj 2); GetDbByTenant "acme") wildcardDbRegistry).ret?
      = some (Value.obj 1) ∧
    (Op.run (do SetDbByTenant "acme" (Value.obj 2); GetDbByTenant "acme") wildcardDbRegistry).ret?
      ≠ some (Value.obj 2) := by
  decide

/-- Claim C2, amended. On a registry whose lock is free, after `SetDbByTenant(T, r)` the
call `GetDbByTenant(T)` returns `r` when `T` is `"*"` or the database map holds no binding
under `"*"`, and returns the `"*"` binding otherwise; in both cases the result is the same
whatever the default tenant `d` of the registry is. -/
theorem set_then_get_db (e : Application) (T : String) (r : DB) (d : String)
    (hfree : e.mux = RWMutex.free) :
    (GoMap.find e.dbs "*" = none ∨ T = "*" →
      (Op.run (do SetDbByTenant T r; GetDbByTenant T) e).ret? = some r) ∧
    (∀ w : DB, GoMap.find e.dbs "*" = some w → T ≠ "*" →
      (Op.run (do SetDbByTenant T r; GetDbByTenant T) e).ret? = some w) ∧
    (Op.run (do SetDbByTenant T r; GetDbByTenant T) { e with defaultTenant := d }).ret? =
      (Op.run (do SetDbByTenant T r; GetDbByTenant T) e).ret? := by
  refine ⟨?_, ?_, ?_⟩
  · intro h
    rcases h with h | h
    · by_cases hT : T = "*"
      · subst hT
        simp [Op.run_bind, SetDbByTenant_run, GetDbByTenant_run, hfree, wildcardLookup,
          Outcome.ret?, GoMap.find_assign_same]
      · have hT2 : ("*" : String) ≠ T := Ne.symm hT
        simp [Op.run_bind, SetDbByTenant_run, GetDbByTenant_run, hfree, wildcardLookup,
          Outcome.ret?, GoMap.find_assign_other _ _ _ _ hT2, h, GoMap.index,
          GoMap.find_assign_same]
    · subst h
      simp [Op.run_bind, SetDbByTenant_run, GetDbByTenant_run, hfree, wildcardLookup,
        Outcome.ret?, GoMap.find_assign_same]
  · intro w h hT
    have hT2 : ("*" : String) ≠ T := Ne.symm hT
    simp [Op.run_bind, SetDbByTenant_run, GetDbByTenant_run, hfree, wildcardLookup,
      Outcome.ret?, GoMap.find_assign_other _ _ _ _ hT2, h]
  · simp [Op.run_bind, SetDbByTenant_run, GetDbByTenant_run, hfree, Outcome.ret?]

theorem set_then_get_db_witness :
    (Op.run (do SetDbByTenant "acme" (Value.obj 2); GetDbByTenant "acme") NewConfig).ret?
      = some (Value.obj 2) ∧
    (Op.run (do SetDbByTenant "acme" (Value.obj 2); GetDbByTenant "acme") wildcardDbRegistry).ret?
      = some (Value.obj 1) :=
  ⟨(set_then_get_db NewConfig "acme" (Value.obj 2) "other" (by decide)).1
      (Or.inl (by decide)),
    (set_then_get_db wildcardDbRegistry "acme" (Value.obj 2) "other" (by decide)).2.1
      (Value.obj 1) (by decide) (by decide)⟩

/-- Claim C3 (default-tenant indirection). On a registry whose lock is free,
`SetDefaultTenant(T2)` returns and leaves every binding map (and the config bags) as they
were; afterwards `GetDefaultTenant()` returns `T2`, and `GetDb()`, `GetCasbin()` and
`GetCrontab()` return, with exactly the value that `GetDbByTenant(T2)`,
`GetCasbinByTenant(T2)` and `GetCrontabByTenant(T2)` return. -/
theorem default_tenant_indirection (e : Application) (T2 : String)
    (hfree : e.mux = RWMutex.free) :
    (Op.run (SetDefaultTenant T2) e).ret? = some () ∧
    (Op.run GetDefaultTenant (Op.run (SetDefaultTenant T2) e).state).ret? = some T2 ∧
    ((Op.run GetDb (Op.run (SetDefaultTenant T2) e).state).ret? =
      (Op.run (GetDbByTenant T2) (Op.run (SetDefaultTenant T2) e).state).ret? ∧
     (Op.run GetDb (Op.run (SetDefaultTenant T2) e).state).ret? ≠ none) ∧
    ((Op.run GetCasbin (Op.run (SetDefaultTenant T2) e).state).ret? =
      (Op.run (GetCasbinByTenant T2) (Op.run (SetDefaultTenant T2) e).state).ret? ∧
     (Op.run GetCasbin (Op.run (SetDefaultTenant T2) e).state).ret? ≠ none) ∧
    ((Op.run GetCrontab (Op.run (SetDefaultTenant T2) e).state).ret? =
      (Op.run (GetCrontabByTenant T2) (Op.run (SetDefaultTenant T2) e).state).ret? ∧
     (Op.run GetCrontab (Op.run (SetDefaultTenant T2) e).state).ret? ≠ none) ∧
    ((Op.run (SetDefaultTenant T2) e).state.dbs = e.dbs ∧
     (Op.run (SetDefaultTenant T2) e).state.casbins = e.casbins ∧
     (Op.run (SetDefaultTenant T2) e).state.crontab = e.crontab ∧
     (Op.run (SetDefaultTenant T2) e).state.middlewares = e.middlewares ∧
     (Op.run (SetDefaultTenant T2) e).state.handler = e.handler ∧
     (Op.run (SetDefaultTenant T2) e).state.configs = e.configs ∧
     (Op.run (SetDefaultTenant T2) e).state.heap = e.heap ∧
     (Op.run (SetDefaultTenant T2) e).state.casbinExclude = e.casbinExclude ∧
     (Op.run (SetDefaultTenant T2) e).state.app = e.app) := by
  simp [SetDefaultTenant_run, GetDefaultTenant_run, GetDb_run, GetCasbin_run, GetCrontab_run,
    GetDbByTenant_run, GetCasbinByTenant_run, GetCrontabByTenant_run, hfree, Outcome.ret?,
    Outcome.state]

theorem default_tenant_indirection_witness :
    (Op.run GetDb (Op.run (SetDefaultTenant "acme") twoTenantRegistry).state).ret? =
      (Op.run (GetDbByTenant "acme") (Op.run (SetDefaultTenant "acme") twoTenantRegistry).state).ret? ∧
    (Op.run (SetDefaultTenant "acme") twoTenantRegistry).state.dbs = twoTenantRegistry.dbs :=
  have h := default_tenant_indirection twoTenantRegistry "acme" (by decide)
  ⟨h.2.2.1.1, h.2.2.2.2.2.1⟩

/-- Claim C4 fails on the code: on every registry whose lock is free, `SetDb(r)` never
returns. It takes the write lock and then blocks in `GetDefaultTenant()`, which asks for the
read lock of the same mutex; nothing is bound and the write lock stays held. The call
`SetDbByTenant(d, r)` with the default tenant `d` returns and binds `r` under `d`. The same
holds for `SetCasbin`, `SetCrontab`, `SetApp` and `SetCasbinExclude`. -/
theorem setDb_blocks_where_setDbByTenant_binds (e : Application) (r : Value)
    (hfree : e.mux = RWMutex.free) :
    (Op.run (SetDb r) e = Outcome.fault Fault.deadlock { e with mux := RWMutex.held } ∧
      (Op.run (SetDbByTenant e.defaultTenant r) e).ret? = some () ∧
      GoMap.find (Op.run (SetDbByTenant e.defaultTenant r) e).state.dbs e.defaultTenant
        = some r) ∧
    (Op.run (SetCasbin r) e = Outcome.fault Fault.deadlock { e with mux := RWMutex.held } ∧
      (Op.run (SetCasbinByTenant e.defaultTenant r) e).ret? = some () ∧
      GoMap.find (Op.run (SetCasbinByTenant e.defaultTenant r) e).state.casbins
        e.defaultTenant = some r) ∧
    (Op.run (SetCrontab r) e = Outcome.fault Fault.deadlock { e with mux := RWMutex.held } ∧
      (Op.run (SetCrontabByTenant e.defaultTenant r) e).ret? = some () ∧
      GoMap.find (Op.run (SetCrontabByTenant e.defaultTenant r) e).state.crontab
        e.defaultTenant = some r) ∧
    (Op.run (SetApp r) e = Outcome.fault Fault.deadlock { e with mux := RWMutex.held } ∧
      (Op.run (SetAppByTenant e.defaultTenant r) e).ret? = some () ∧
      GoMap.find (Op.run (SetAppByTenant e.defaultTenant r) e).state.app e.defaultTenant
        = some r) ∧
    (Op.run (SetCasbinExclude r) e
        = Outcome.fault Fault.deadlock { e with mux := RWMutex.held } ∧
      (Op.run (SetCasbinExcludeByTenant e.defaultTenant r) e).ret? = some () ∧
      GoMap.find (Op.run (SetCasbinExcludeByTenant e.defaultTenant r) e).state.casbinExclude
        e.defaultTenant = some r) := by
  simp [SetDb_run, SetCasbin_run, SetCrontab_run, SetApp_run, SetCasbinExclude_run,
    SetDbByTenant_run, SetCasbinByTenant_run, SetCrontabByTenant_run, SetAppByTenant_run,
    SetCasbinExcludeByTenant_run, hfree, Outcome.ret?, Outcome.state, GoMap.find_assign_same]

theorem setDb_blocks_where_setDbByTenant_binds_witness :
    Op.run (SetDb (Value.obj 1)) NewConfig
      = Outcome.fault Fault.deadlock { NewConfig with mux := RWMutex.held } ∧
    GoMap.find (Op.run (SetDb (Value.obj 1)) NewConfig).state.dbs "default" = none ∧
    GoMap.find (Op.run (SetDbByTenant "default" (Value.obj 1)) NewConfig).state.dbs "default"
      = some (Value.obj 1) :=
  ⟨(setDb_blocks_where_setDbByTenant_binds NewConfig (Value.obj 1) (by decide)).1.1,
    by decide,
    (setDb_blocks_where_setDbByTenant_binds NewConfig (Value.obj 1) (by decide)).1.2.2⟩

/-- Claim C5 fails on the code: on every registry whose lock is free, each of `SetDb`,
`SetApp`, `SetCasbin`, `SetCasbinExclude`, `SetCrontab`, `SetHandler`, `GetHandler` and
`GetConfig` takes the write lock and then, inside `GetDefaultTenant()`, asks for the read
lock of the same mutex: the call blocks there for ever, with the write lock still held and
nothing else changed. Every other call of the registry ends with the lock free again and
never blocks. -/
theorem default_tenant_under_write_lock_deadlocks (e : Application) (r : Value)
    (hfree : e.mux = RWMutex.free) :
    Op.run (SetDb r) e = Outcome.fault Fault.deadlock { e with mux := RWMutex.held } ∧
    Op.run (SetApp r) e = Outcome.fault Fault.deadlock { e with mux := RWMutex.held } ∧
    Op.run (SetCasbin r) e = Outcome.fault Fault.deadlock { e with mux := RWMutex.held } ∧
    Op.run (SetCasbinExclude r) e
      = Outcome.fault Fault.deadlock { e with mux := RWMutex.held } ∧
    Op.run (SetCrontab r) e = Outcome.fault Fault.deadlock { e with mux := RWMutex.held } ∧
    Op.run (SetHandler r) e = Outcome.fault Fault.deadlock { e with mux := RWMutex.held } ∧
    Op.run GetHandler e = Outcome.fault Fault.deadlock { e with mux := RWMutex.held } ∧
    Op.run GetConfig e = Outcome.fault Fault.deadlock { e with mux := RWMutex.held } ∧
    (∀ c : Call, c.readsDefaultTenantUnderLock = false →
      (c.exec e).fault? ≠ some Fault.deadlock ∧ (c.exec e).state.mux = RWMutex.free) :=
  ⟨SetDb_run e r hfree, SetApp_run e r hfree, SetCasbin_run e r hfree,
    SetCasbinExclude_run e r hfree, SetCrontab_run e r hfree, SetHandler_run e r hfree,
    GetHandler_run e hfree, GetConfig_run e hfree,
    fun c hc => ⟨((call_exec_classified e c hfree).2 hc).1,
      ((call_exec_classified e c hfree).2 hc).2.1⟩⟩

theorem default_tenant_under_write_lock_deadlocks_witness :
    (Op.run (SetDb (Value.obj 1)) NewConfig).fault? = some Fault.deadlock ∧
    (Op.run (SetApp (Value.obj 1)) NewConfig).fault? = some Fault.deadlock ∧
    (Op.run (SetCasbin (Value.obj 1)) NewConfig).fault? = some Fault.deadlock ∧
    (Op.run (SetCasbinExclude (Value.obj 1)) NewConfig).fault? = some Fault.deadlock ∧
    (Op.run (SetCrontab (Value.obj 1)) NewConfig).fault? = some Fault.deadlock ∧
    (Op.run (SetHandler (Value.obj 1)) NewConfig).fault? = some Fault.deadlock ∧
    (Op.run GetHandler NewConfig).fault? = some Fault.deadlock ∧
    (Op.run GetConfig NewConfig).fault? = some Fault.deadlock ∧
    (Op.run GetConfig NewConfig).state.mux = RWMutex.held :=
  have h := default_tenant_under_write_lock_deadlocks NewConfig (Value.obj 1) (by decide)
  ⟨by rw [h.1]; rfl, by rw [h.2.1]; rfl, by rw [h.2.2.1]; rfl, by rw [h.2.2.2.1]; rfl,
    by rw [h.2.2.2.2.1]; rfl, by rw [h.2.2.2.2.2.1]; rfl, by rw [h.2.2.2.2.2.2.1]; rfl,
    by rw [h.2.2.2.2.2.2.2.1]; rfl, by rw [h.2.2.2.2.2.2.2.1]; rfl⟩

/-- Claim C6, as stated, fails: with a middleware bound under `"*"`, `GetMiddleware` still
returns the binding of the key asked for (and nil for a key that has none), and with a
config bag bound under `"*"`, `GetConfigByTenant` returns nil for a tenant without a bag. -/
theorem middleware_and_config_ignore_wildcard :
    (Op.run (do SetMiddleware "*" (Value.obj 1); SetMiddleware "acme" (Value.obj 2); GetMiddleware "acme") NewConfig).ret?
      = some (Value.obj 2) ∧
    (Op.run (do SetMiddleware "*" (Value.obj 1); GetMiddleware "acme") NewConfig).ret?
      = some Value.nil ∧
    (Op.run (do SetConfigValueByTenant "*" "k" (Value.obj 1); GetConfigByTenant "*") NewConfig).ret?
      = some (Config.ref 0) ∧
    (Op.run (do SetConfigValueByTenant "*" "k" (Value.obj 1); GetConfigByTenant "acme") NewConfig).ret?
      = some Config.nil := by
  decide

/-- Claim C6, amended. The middleware and config stores have no wildcard rule: on a
registry whose lock is free, `GetMiddleware(T)` returns the middleware bound under the key
`T` itself and `GetConfigByTenant(T)` the bag bound under `T` itself (the zero value when
`T` has no binding), whatever is bound under `"*"`. For `T` other than `"*"`, a binding set
for `T` is what the getter returns, whether `"*"` is bound before it or after it. -/
theorem middleware_and_config_plain_lookup (e : Application) (T : String)
    (hfree : e.mux = RWMutex.free) :
    (Op.run (GetMiddleware T) e).ret? = some (GoMap.index e.middlewares T) ∧
    (Op.run (GetConfigByTenant T) e).ret? = some (GoMap.index e.configs T) ∧
    (∀ r w : Value, T ≠ "*" →
      (Op.run (do SetMiddleware "*" w; SetMiddleware T r; GetMiddleware T) e).ret? = some r ∧
      (Op.run (do SetMiddleware T r; SetMiddleware "*" w; GetMiddleware T) e).ret? = some r) ∧
    (∀ c w : Config, T ≠ "*" →
      (Op.run (do SetConfigByTenant "*" w; SetConfigByTenant T c; GetConfigByTenant T) e).ret?
        = some c ∧
      (Op.run (do SetConfigByTenant T c; SetConfigByTenant "*" w; GetConfigByTenant T) e).ret?
        = some c) := by
  refine ⟨?_, ?_, ?_, ?_⟩
  · simp [GetMiddleware_run, hfree, Outcome.ret?]
  · simp [GetConfigByTenant_run, hfree, Outcome.ret?]
  · intro r w hT
    simp [Op.run_bind, SetMiddleware_run, GetMiddleware_run, hfree, Outcome.ret?,
      GoMap.index_assign_same, GoMap.index_assign_other _ _ _ _ hT]
  · intro c w hT
    simp [Op.run_bind, SetConfigByTenant_run, GetConfigByTenant_run, hfree, Outcome.ret?,
      GoMap.index_assign_same, GoMap.index_assign_other _ _ _ _ hT]

theorem middleware_and_config_plain_lookup_witness :
    (Op.run (GetMiddleware "acme") NewConfig).ret? = some Value.nil ∧
    (Op.run (do SetMiddleware "*" (Value.obj 1); SetMiddleware "acme" (Value.obj 2); GetMiddleware "acme") NewConfig).ret?
      = some (Value.obj 2) :=
  have h := middleware_and_config_plain_lookup NewConfig "acme" (by decide)
  ⟨h.1, (h.2.2.1 (Value.obj 2) (Value.obj 1) (by decide)).1⟩

/-- Claim C7 (shadowing does not delete). On a registry whose lock is free,
`SetDbByTenant(T, r)` returns; in the raw map that `GetAllDb()` then returns, the key `T` is
bound to `r` and every other key `U` has the entry it had before; no other binding map, no
config bag, neither callback list and not the default tenant is changed. In particular
after `SetDbByTenant("*", r)` every other key keeps its entry, and once the `"*"` entry is
deleted from the raw map, `GetDbByTenant(U)` returns the binding of `U` as it was. -/
theorem shadowing_does_not_delete (e : Application) (T U : String) (r : DB)
    (hfree : e.mux = RWMutex.free) :
    (Op.run (SetDbByTenant T r) e).ret? = some () ∧
    (Op.run GetAllDb (Op.run (SetDbByTenant T r) e).state).ret?
      = some (Op.run (SetDbByTenant T r) e).state.dbs ∧
    GoMap.find (Op.run (SetDbByTenant T r) e).state.dbs T = some r ∧
    (U ≠ T → GoMap.find (Op.run (SetDbByTenant T r) e).state.dbs U = GoMap.find e.dbs U) ∧
    ((Op.run (SetDbByTenant T r) e).state.casbins = e.casbins ∧
     (Op.run (SetDbByTenant T r) e).state.crontab = e.crontab ∧
     (Op.run (SetDbByTenant T r) e).state.middlewares = e.middlewares ∧
     (Op.run (SetDbByTenant T r) e).state.handler = e.handler ∧
     (Op.run (SetDbByTenant T r) e).state.configs = e.configs ∧
     (Op.run (SetDbByTenant T r) e).state.heap = e.heap ∧
     (Op.run (SetDbByTenant T r) e).state.casbinExclude = e.casbinExclude ∧
     (Op.run (SetDbByTenant T r) e).state.app = e.app ∧
     (Op.run (SetDbByTenant T r) e).state.before = e.before ∧
     (Op.run (SetDbByTenant T r) e).state.appRouters = e.appRouters ∧
     (Op.run (SetDbByTenant T r) e).state.defaultTenant = e.defaultTenant) ∧
    (U ≠ "*" →
      GoMap.find (Op.run (SetDbByTenant "*" r) e).state.dbs U = GoMap.find e.dbs U ∧
      (Op.run (do SetDbByTenant "*" r; GetDbByTenant U) e).ret? = some r ∧
      (Op.run (do SetDbByTenant "*" r; deleteFromAllDb "*"; GetDbByTenant U) e).ret?
        = some (GoMap.index e.dbs U)) := by
  refine ⟨?_, ?_, ?_, ?_, ?_, ?_⟩
  · simp [SetDbByTenant_run, hfree, Outcome.ret?]
  · simp [SetDbByTenant_run, GetAllDb_run, hfree, Outcome.ret?, Outcome.state]
  · simp [SetDbByTenant_run, hfree, Outcome.state, GoMap.find_assign_same]
  · intro hU
    simp [SetDbByTenant_run, hfree, Outcome.state, GoMap.find_assign_other _ _ _ _ hU]
  · simp [SetDbByTenant_run, hfree, Outcome.state]
  · intro hU
    refine ⟨?_, ?_, ?_⟩
    · simp [SetDbByTenant_run, hfree, Outcome.state, GoMap.find_assign_other _ _ _ _ hU]
    · simp [Op.run_bind, SetDbByTenant_run, GetDbByTenant_run, hfree, Outcome.ret?,
        wildcardLookup, GoMap.find_assign_same]
    · simp [Op.run_bind, SetDbByTenant_run, GetDbByTenant_run, deleteFromAllDb_run, hfree,
        Outcome.ret?, wildcardLookup, GoMap.find_delete_same, GoMap.index,
        GoMap.find_delete_other _ _ _ hU, GoMap.find_assign_other _ _ _ _ hU]

theorem shadowing_does_not_delete_witness :
    GoMap.find (Op.run (SetDbByTenant "*" (Value.obj 9)) twoTenantRegistry).state.dbs "acme"
      = some (Value.obj 2) ∧
    (Op.run (do SetDbByTenant "*" (Value.obj 9); GetDbByTenant "acme") twoTenantRegistry).ret?
      = some (Value.obj 9) ∧
    (Op.run (do SetDbByTenant "*" (Value.obj 9); deleteFromAllDb "*"; GetDbByTenant "acme") twoTenantRegistry).ret?
      = some (Value.obj 2) :=
  have h := (shadowing_does_not_delete twoTenantRegistry "*" "acme" (Value.obj 9)
    (by decide)).2.2.2.2.2 (by decide)
  ⟨h.1, h.2.1, h.2.2⟩

/-- Claim C8 (a binding miss yields the zero value). On a registry whose lock is free, a
getter asked for a tenant `T` returns (it does not fail) the zero value whenever its map
binds neither `T` nor `"*"` (for `GetMiddleware`, `GetConfigByTenant` and
`GetConfigValueByTenant`: whenever it does not bind `T`). On the registry built by
`NewConfig()` this is the case for every tenant and every getter. -/
theorem binding_miss_yields_zero (e : Application) (T k : String)
    (hfree : e.mux = RWMutex.free) :
    (GoMap.find e.dbs T = none → GoMap.find e.dbs "*" = none →
      (Op.run (GetDbByTenant T) e).ret? = some Value.nil) ∧
    (GoMap.find e.casbins T = none → GoMap.find e.casbins "*" = none →
      (Op.run (GetCasbinByTenant T) e).ret? = some Value.nil) ∧
    (GoMap.find e.crontab T = none → GoMap.find e.crontab "*" = none →
      (Op.run (GetCrontabByTenant T) e).ret? = some Value.nil) ∧
    (GoMap.find e.app T = none → GoMap.find e.app "*" = none →
      (Op.run (GetAppByTenant T) e).ret? = some Value.nil) ∧
    (GoMap.find e.casbinExclude T = none → GoMap.find e.casbinExclude "*" = none →
      (Op.run (GetCasbinExcludeByTenant T) e).ret? = some Value.nil) ∧
    (GoMap.find e.middlewares T = none →
      (Op.run (GetMiddleware T) e).ret? = some Value.nil) ∧
    (GoMap.find e.configs T = none →
      (Op.run (GetConfigByTenant T) e).ret? = some Config.nil) ∧
    (GoMap.find e.configs T = none →
      (Op.run (GetConfigValueByTenant T k) e).ret? = some Value.nil) ∧
    ((Op.run (GetDbByTenant T) NewConfig).ret? = some Value.nil ∧
     (Op.run (GetCasbinByTenant T) NewConfig).ret? = some Value.nil ∧
     (Op.run (GetCrontabByTenant T) NewConfig).ret? = some Value.nil ∧
     (Op.run (GetAppByTenant T) NewConfig).ret? = some Value.nil ∧
     (Op.run (GetCasbinExcludeByTenant T) NewConfig).ret? = some Value.nil ∧
     (Op.run (GetMiddleware T) NewConfig).ret? = some Value.nil ∧
     (Op.run (GetConfigByTenant T) NewConfig).ret? = some Config.nil ∧
     (Op.run (GetConfigValueByTenant T k) NewConfig).ret? = some Value.nil) := by
  have zero : (default : Value) = Value.nil := rfl
  have zeroc : (default : Config) = Config.nil := rfl
  refine ⟨?_, ?_, ?_, ?_, ?_, ?_, ?_, ?_, ?_⟩
  · intro h1 h2
    simp [GetDbByTenant_run, hfree, Outcome.ret?, wildcardLookup, GoMap.index, h1, h2, zero]
  · intro h1 h2
    simp [GetCasbinByTenant_run, hfree, Outcome.ret?, wildcardLookup, GoMap.index, h1, h2, zero]
  · intro h1 h2
    simp [GetCrontabByTenant_run, hfree, Outcome.ret?, wildcardLookup, GoMap.index, h1, h2, zero]
  · intro h1 h2
    simp [GetAppByTenant_run, hfree, Outcome.ret?, wildcardLookup, GoMap.index, h1, h2, zero]
  · intro h1 h2
    simp [GetCasbinExcludeByTenant_run, hfree, Outcome.ret?, wildcardLookup, GoMap.index, h1,
      h2, zero]
  · intro h1
    simp [GetMiddleware_run, hfree, Outcome.ret?, GoMap.index, h1, zero]
  · intro h1
    simp [GetConfigByTenant_run, hfree, Outcome.ret?, GoMap.index, h1, zeroc]
  · intro h1
    simp [GetConfigValueByTenant_run, hfree, Outcome.ret?, GoMap.index, h1, zeroc, Heap.read]
  · exact ⟨rfl, rfl, rfl, rfl, rfl, rfl, rfl, rfl⟩

theorem binding_miss_yields_zero_witness :
    (Op.run (GetDbByTenant "acme") NewConfig).ret? = some Value.nil ∧
    (Op.run (GetCasbinByTenant "acme") NewConfig).ret? = some Value.nil ∧
    (Op.run (GetCrontabByTenant "acme") NewConfig).ret? = some Value.nil ∧
    (Op.run (GetAppByTenant "acme") NewConfig).ret? = some Value.nil ∧
    (Op.run (GetCasbinExcludeByTenant "acme") NewConfig).ret? = some Value.nil ∧
    (Op.run (GetMiddleware "acme") NewConfig).ret? = some Value.nil ∧
    (Op.run (GetConfigByTenant "acme") NewConfig).ret? = some Config.nil ∧
    (Op.run (GetConfigValueByTenant "acme" "k") NewConfig).ret? = some Value.nil :=
  have h := binding_miss_yields_zero NewConfig "acme" "k" (by decide)
  ⟨h.1 (by decide) (by decide), h.2.1 (by decide) (by decide),
    h.2.2.1 (by decide) (by decide), h.2.2.2.1 (by decide) (by decide),
    h.2.2.2.2.1 (by decide) (by decide), h.2.2.2.2.2.1 (by decide),
    h.2.2.2.2.2.2.1 (by decide), h.2.2.2.2.2.2.2.1 (by decide)⟩

/-- Claim C9 fails on the code: on the registry built by `NewConfig()`, after
`SetConfigByTenant(T, nil)` (which returns) the call `SetConfigValueByTenant(T, k, v)`
panics with an assignment to an entry of a nil map, for every tenant, key and value: the
bag of `T` is present, so none is created, and it is nil. Without the nil bag the same call
creates the bag and `GetConfigValueByTenant(T, k)` returns `v`. -/
theorem setConfigValue_on_nil_bag_panics (T k : String) (v : Value) :
    (Op.run (SetConfigByTenant T Config.nil) NewConfig).ret? = some () ∧
    (Op.run (do SetConfigByTenant T Config.nil; SetConfigValueByTenant T k v) NewConfig).fault?
      = some Fault.nilMapAssign ∧
    (Op.run (do SetConfigValueByTenant T k v; GetConfigValueByTenant T k) NewConfig).ret?
      = some v := by
  have hfree : NewConfig.mux = RWMutex.free := rfl
  refine ⟨rfl, ?_, ?_⟩
  · simp [Op.run_bind, SetConfigByTenant_run, SetConfigValueByTenant_run_nil, hfree,
      GoMap.find_assign_same, Outcome.fault?]
  · have hb : GoMap.find NewConfig.configs T = none := rfl
    simp [Op.run_bind, SetConfigValueByTenant_run_absent, GetConfigValueByTenant_run, hfree, hb,
      Outcome.ret?, GoMap.index_assign_same, Heap.read, Heap.bag, GoMap.index, GoMap.find]

/-- Claim C10, as stated, fails: on the registry built by `NewConfig()`, `SetBefore(f)`
appends `f` to the list `before` while the lock is free, and `GetBefore()` reads the list
while the lock is free. -/
theorem callback_lists_accessed_without_lock :
    (Call.exec (Call.SetBefore (Value.obj 1)) NewConfig).state.before = [Value.obj 1] ∧
    Call.accesses (Call.SetBefore (Value.obj 1)) NewConfig
      = [{ field := Field.before, write := true, mux := RWMutex.free }] ∧
    (Call.accesses (Call.SetBefore (Value.obj 1)) NewConfig).all Access.guarded = false ∧
    (Call.accesses Call.GetBefore NewConfig).all Access.guarded = false := by
  decide

/-- Claim C10, amended. On a registry whose lock is free, every access that a public
operation makes to a binding map, to the config bags or to the default tenant is guarded (a
write happens under the write lock, a read under the read or the write lock), for every
operation other than `GetAllCasbin`, `GetAllMiddleware` and the four operations on the
callback lists. The four operations `SetBefore`, `GetBefore`, `SetAppRouters` and
`GetAppRouters` take no lock: each accesses its list while the lock is free. -/
theorem lock_discipline (e : Application) (c : Call) (hfree : e.mux = RWMutex.free) :
    (c.takesNoLock = false → ∀ a ∈ c.accesses e, a.guarded = true) ∧
    (c.isCallbackListCall = true →
      c.accesses e ≠ [] ∧ ∀ a ∈ c.accesses e, a.mux = RWMutex.free) := by
  have hcl := call_exec_classified e c hfree
  cases hr : c.readsDefaultTenantUnderLock with
  | true =>
    have hacc : c.accesses e = [] := by simp [Call.accesses, hcl.1 hr, Outcome.state]
    refine ⟨fun _ a ha => by simp [hacc] at ha, fun hcb => ?_⟩
    have hno := (callbackListCall_classified c hcb).2
    rw [hr] at hno
    cases hno
  | false =>
    obtain ⟨_, _, tr, htr, hg, hu⟩ := hcl.2 hr
    have hacc : c.accesses e = tr := by simp [Call.accesses, htr]
    rw [hacc]
    exact ⟨hg, fun hcb => hu (callbackListCall_classified c hcb).1⟩

theorem lock_discipline_witness :
    (∀ a ∈ Call.accesses (Call.SetDbByTenant "acme" (Value.obj 1)) NewConfig,
      a.guarded = true) ∧
    (∀ a ∈ Call.accesses (Call.SetConfigValue "k" (Value.obj 1)) NewConfig,
      a.guarded = true) ∧
    Call.accesses (Call.SetAppRouters (Value.obj 1)) NewConfig ≠ [] ∧
    (∀ a ∈ Call.accesses (Call.SetAppRouters (Value.obj 1)) NewConfig,
      a.mux = RWMutex.free) :=
  ⟨(lock_discipline NewConfig (Call.SetDbByTenant "acme" (Value.obj 1)) (by decide)).1
      (by decide),
    (lock_discipline NewConfig (Call.SetConfigValue "k" (Value.obj 1)) (by decide)).1
      (by decide),
    ((lock_discipline NewConfig (Call.SetAppRouters (Value.obj 1)) (by decide)).2
      (by decide)).1,
    ((lock_discipline NewConfig (Call.SetAppRouters (Value.obj 1)) (by decide)).2
      (by decide)).2⟩

/-! ## More lemmas on the registry -/

theorem foldl_append_singleton {α β : Type} (f : α → β) (R : List α) (init : List β) :
    R.foldl (fun acc r => acc ++ [f r]) init = init ++ R.map f := by
  induction R generalizing init with
  | nil => simp
  | cons x xs ih => simp [List.foldl, ih]

theorem GetRouter_run_gin (e : Application) (R : List RouteInfo)
    (h : e.engine = Engine.gin R) :
    Op.run GetRouter e = Outcome.ok (e.routers ++ R.map Router.ofRoute)
      { e with routers := e.routers ++ R.map Router.ofRoute } := by
  have hf := foldl_append_singleton Router.ofRoute R e.routers
  simp only [Router.ofRoute] at hf
  simp [Op.run, GetRouter, setRouter, h, hf, Router.ofRoute]

theorem afterGetRouterCalls_gin (R : List RouteInfo) (n : Nat) (e : Application)
    (h : e.engine = Engine.gin R) :
    afterGetRouterCalls n e = { e with routers := e.routers ++ repeatedRoutes R n } := by
  induction n generalizing e with
  | zero => simp [afterGetRouterCalls, repeatedRoutes]
  | succ k ih =>
    have hk := ih { e with routers := e.routers ++ R.map Router.ofRoute } h
    simp only [afterGetRouterCalls, GetRouter_run_gin e R h, Outcome.state, hk, repeatedRoutes,
      List.append_assoc]

theorem repeatedRoutes_append (R : List RouteInfo) (n : Nat) :
    repeatedRoutes R n ++ R.map Router.ofRoute = R.map Router.ofRoute ++ repeatedRoutes R n := by
  induction n with
  | zero => simp [repeatedRoutes]
  | succ k ih => simp [repeatedRoutes, List.append_assoc, ih]

theorem repeatedRoutes_length (R : List RouteInfo) (n : Nat) :
    (repeatedRoutes R n).length = n * R.length := by
  induction n with
  | zero => simp [repeatedRoutes]
  | succ k ih => simp [repeatedRoutes, ih, Nat.succ_mul, Nat.add_comm]

theorem SetBeforeAll_run (fs : List Func) (e : Application) :
    ∃ e1, Op.run (SetBeforeAll fs) e = Outcome.ok () e1 ∧ e1.before = e.before ++ fs := by
  induction fs generalizing e with
  | nil => exact ⟨e, rfl, by simp⟩
  | cons f fs ih =>
    obtain ⟨e1, h1, h2⟩ := ih (Op.run (SetBefore f) e).state
    refine ⟨e1, ?_, ?_⟩
    · simp only [Op.run] at h1
      simp only [SetBeforeAll, Op.run, Op.bind]
      exact h1
    · rw [h2]
      simp [Op.run, SetBefore, store, Outcome.state]

theorem SetAppRoutersAll_run (fs : List Func) (e : Application) :
    ∃ e1, Op.run (SetAppRoutersAll fs) e = Outcome.ok () e1 ∧
      e1.appRouters = e.appRouters ++ fs := by
  induction fs generalizing e with
  | nil => exact ⟨e, rfl, by simp⟩
  | cons f fs ih =>
    obtain ⟨e1, h1, h2⟩ := ih (Op.run (SetAppRouters f) e).state
    refine ⟨e1, ?_, ?_⟩
    · simp only [Op.run] at h1
      simp only [SetAppRoutersAll, Op.run, Op.bind]
      exact h1
    · rw [h2]
      simp [Op.run, SetAppRouters, store, Outcome.state]

theorem GoMap.count_eq_zero {V : Type} (m : GoMap V) (k : String)
    (h : k ∉ GoMap.keys m) : GoMap.count m k = 0 := by
  induction m with
  | nil => rfl
  | cons p rest ih =>
    obtain ⟨k1, v1⟩ := p
    simp only [GoMap.keys, List.map_cons, List.mem_cons, not_or] at h
    have hne : ¬ k1 = k := fun hh => h.1 hh.symm
    have := ih h.2
    simp only [GoMap.count] at this ⊢
    simp [List.filter, hne, this]

theorem GoMap.count_assign {V : Type} (m : GoMap V) (k : String) (v : V)
    (h : (GoMap.keys m).Nodup) : GoMap.count (GoMap.assign m k v) k = 1 := by
  induction m with
  | nil => simp [GoMap.assign, GoMap.count]
  | cons p rest ih =>
    obtain ⟨k1, v1⟩ := p
    simp only [GoMap.keys, List.map_cons, List.nodup_cons] at h
    by_cases hk : k1 = k
    · subst hk
      have h0 := GoMap.count_eq_zero rest k1 h.1
      simp only [GoMap.count] at h0 ⊢
      simp [GoMap.assign, List.filter, h0]
    · have := ih h.2
      simp only [GoMap.count] at this ⊢
      simp [GoMap.assign, hk, List.filter, this]

theorem GoMap.assign_assign {V : Type} (m : GoMap V) (k : String) (v : V) :
    GoMap.assign (GoMap.assign m k v) k v = GoMap.assign m k v := by
  induction m with
  | nil => simp [GoMap.assign]
  | cons p rest ih =>
    obtain ⟨k1, v1⟩ := p
    by_cases hk : k1 = k <;> simp [GoMap.assign, hk, ih]

theorem SetConfigValueByTenant_keeps_callbacks (e : Application) (t k : String) (v : Value)
    (h : e.mux = RWMutex.free) :
    (Op.run (SetConfigValueByTenant t k v) e).state.before = e.before ∧
    (Op.run (SetConfigValueByTenant t k v) e).state.appRouters = e.appRouters := by
  cases hb : GoMap.find e.configs t with
  | none =>
    rw [SetConfigValueByTenant_run_absent e t k v h hb]
    exact ⟨rfl, rfl⟩
  | some c =>
    cases c with
    | nil =>
      rw [SetConfigValueByTenant_run_nil e t k v h hb]
      exact ⟨rfl, rfl⟩
    | ref a =>
      rw [SetConfigValueByTenant_run_ref e t k v a h hb]
      exact ⟨rfl, rfl⟩

theorem SetConfigValue_keeps_callbacks (e : Application) (k : String) (v : Value)
    (h : e.mux = RWMutex.free) :
    (Op.run (SetConfigValue k v) e).state.before = e.before ∧
    (Op.run (SetConfigValue k v) e).state.appRouters = e.appRouters := by
  have hrun : Op.run (SetConfigValue k v) e = Op.run (SetConfigValueByTenant e.defaultTenant k v)
      { e with trace := e.trace ++
               [{ field := Field.defaultTenant, write := false,
                  mux := { writer := false, readers := 1 } }] } := by
    simp [SetConfigValue, Op.run_bind, GetDefaultTenant_run, h]
  rw [hrun]
  exact SetConfigValueByTenant_keeps_callbacks _ e.defaultTenant k v h

theorem call_keeps_callbacks (e : Application) (c : Call) (h : e.mux = RWMutex.free) :
    e.before <+: (c.exec e).state.before ∧ e.appRouters <+: (c.exec e).state.appRouters := by
  cases c
  case SetConfigValueByTenant t k v =>
    have hs := SetConfigValueByTenant_keeps_callbacks e t k v h
    simp only [Call.exec, Op.run] at *
    cases hr : Runtime.SetConfigValueByTenant t k v e <;> rw [hr] at hs <;>
      simp only [Outcome.forget, Outcome.state] at * <;> simp [hs.1, hs.2]
  case SetConfigValue k v =>
    have hs := SetConfigValue_keeps_callbacks e k v h
    simp only [Call.exec, Op.run] at *
    cases hr : Runtime.SetConfigValue k v e <;> rw [hr] at hs <;>
      simp only [Outcome.forget, Outcome.state] at * <;> simp [hs.1, hs.2]
  all_goals
    cases e
    simp only [RWMutex.free] at h
    subst h
    simp [Call.exec, Outcome.forget, Outcome.state,
      Runtime.SetDbByTenant, Runtime.SetDb, Runtime.GetDbByTenant, Runtime.GetDb,
      Runtime.GetAllDb, Runtime.SetBefore, Runtime.GetBefore, Runtime.SetAppByTenant,
      Runtime.SetApp, Runtime.GetApp, Runtime.GetAppByTenant, Runtime.getFromMap,
      Runtime.SetCasbinExcludeByTenant, Runtime.SetCasbinExclude, Runtime.GetCasbinExclude,
      Runtime.GetCasbinExcludeByTenant, Runtime.SetCasbinByTenant, Runtime.SetCasbin,
      Runtime.GetAllCasbin, Runtime.GetCasbin, Runtime.GetCasbinByTenant,
      Runtime.SetDefaultTenant, Runtime.GetDefaultTenant, Runtime.SetCrontabByTenant,
      Runtime.SetCrontab, Runtime.GetAllCrontab, Runtime.GetCrontab,
      Runtime.GetCrontabByTenant, Runtime.SetMiddleware, Runtime.GetAllMiddleware,
      Runtime.GetMiddleware, Runtime.SetHandler, Runtime.SetHandlerByTenant,
      Runtime.GetAllHandler, Runtime.GetHandler, Runtime.GetHandlerByTenant,
      Runtime.SetConfigByTenant, Runtime.GetConfigValueByTenant, Runtime.GetConfigByTenant,
      Runtime.GetConfig, Runtime.GetConfigValue, Runtime.SetAppRouters, Runtime.GetAppRouters,
      bind, Op.bind, pure, Op.pure, Lock, Unlock, RLock, RUnlock, load, store]

theorem SetHandlerByTenant_run (e : Application) (t : String) (f : Func)
    (h : e.mux = RWMutex.free) :
    Op.run (SetHandlerByTenant t f) e = Outcome.ok ()
      { e with handler := GoMap.assign e.handler t (GoMap.index e.handler t ++ [f]),
               trace := e.trace ++
                 [{ field := Field.handler, write := false, mux := RWMutex.held },
                  { field := Field.handler, write := true, mux := RWMutex.held }] } := by
  cases e
  simp only [RWMutex.free] at h
  subst h
  simp [SetHandlerByTenant, Op.run, bind, Op.bind, Lock, load, store, Unlock, RWMutex.held]

/-- Claim C11 (callback lists are append-only and ordered). `GetBefore()` returns the list
`before`; after `SetBefore(f)` it returns that list followed by `f`; after the callbacks of
a list `fs` are registered one by one it returns the former list followed by `fs`, in the
order of registration. The same holds for `SetAppRouters` and `GetAppRouters`. No public
operation removes or reorders an entry: after any call on a registry whose lock is free the
former list is an initial segment of the new one, and `SetEngine`, `GetEngine` and
`GetRouter` leave both lists as they are. -/
theorem callback_lists_append_only (e : Application) (f : Func) (fs : List Func) (c : Call)
    (g : Engine) (hfree : e.mux = RWMutex.free) :
    ((Op.run GetBefore e).ret? = some e.before ∧
      (Op.run (do SetBefore f; GetBefore) e).ret? = some (e.before ++ [f]) ∧
      (e.before ++ [f]).length = e.before.length + 1) ∧
    ((Op.run GetAppRouters e).ret? = some e.appRouters ∧
      (Op.run (do SetAppRouters f; GetAppRouters) e).ret? = some (e.appRouters ++ [f]) ∧
      (e.appRouters ++ [f]).length = e.appRouters.length + 1) ∧
    (Op.run (do SetBeforeAll fs; GetBefore) e).ret? = some (e.before ++ fs) ∧
    (Op.run (do SetAppRoutersAll fs; GetAppRouters) e).ret? = some (e.appRouters ++ fs) ∧
    (e.before <+: (c.exec e).state.before ∧ e.appRouters <+: (c.exec e).state.appRouters) ∧
    ((Op.run (SetEngine g) e).state.before = e.before ∧
      (Op.run GetEngine e).state.before = e.before ∧
      (Op.run GetRouter e).state.before = e.before ∧
      (Op.run (SetEngine g) e).state.appRouters = e.appRouters ∧
      (Op.run GetEngine e).state.appRouters = e.appRouters ∧
      (Op.run GetRouter e).state.appRouters = e.appRouters) := by
  refine ⟨⟨rfl, rfl, by simp⟩, ⟨rfl, rfl, by simp⟩, ?_, ?_, call_keeps_callbacks e c hfree, ?_⟩
  · obtain ⟨e1, h1, h2⟩ := SetBeforeAll_run fs e
    rw [Op.run_bind, h1]
    simp [Op.run, GetBefore, load, Outcome.ret?, h2]
  · obtain ⟨e1, h1, h2⟩ := SetAppRoutersAll_run fs e
    rw [Op.run_bind, h1]
    simp [Op.run, GetAppRouters, load, Outcome.ret?, h2]
  · refine ⟨rfl, rfl, ?_, rfl, rfl, ?_⟩
    · cases hg : e.engine <;> simp [Op.run, GetRouter, setRouter, hg, Outcome.state]
    · cases hg : e.engine <;> simp [Op.run, GetRouter, setRouter, hg, Outcome.state]

theorem callback_lists_append_only_witness :
    (Op.run (do SetBefore (Value.obj 1); SetBefore (Value.obj 2); SetBefore (Value.obj 3); GetBefore) NewConfig).ret?
      = some [Value.obj 1, Value.obj 2, Value.obj 3] ∧
    (Op.run (do SetBeforeAll [Value.obj 1, Value.obj 2]; GetBefore) NewConfig).ret?
      = some ([] ++ [Value.obj 1, Value.obj 2]) ∧
    NewConfig.before <+: (Call.exec (Call.SetBefore (Value.obj 1)) NewConfig).state.before :=
  have h := callback_lists_append_only NewConfig (Value.obj 1) [Value.obj 1, Value.obj 2]
    (Call.SetBefore (Value.obj 1)) Engine.nil (by decide)
  ⟨by decide, h.2.2.1, h.2.2.2.2.1.1⟩

/-- Claim C12 (set is idempotent). On a registry whose lock is free and whose database map
has one entry per key, `SetDbByTenant(T, r)` performed twice returns and leaves the same
registry state as performed once; the database map then holds exactly one entry for `T`,
the second call does not change its size, and `GetDbByTenant(T)` returns the same value
after either. -/
theorem set_db_idempotent (e : Application) (T : String) (r : DB)
    (hfree : e.mux = RWMutex.free) (hkeys : (GoMap.keys e.dbs).Nodup) :
    (Op.run (do SetDbByTenant T r; SetDbByTenant T r) e).ret? = some () ∧
    (Op.run (do SetDbByTenant T r; SetDbByTenant T r) e).state.untraced
      = (Op.run (SetDbByTenant T r) e).state.untraced ∧
    GoMap.count (Op.run (SetDbByTenant T r) e).state.dbs T = 1 ∧
    GoMap.count (Op.run (do SetDbByTenant T r; SetDbByTenant T r) e).state.dbs T = 1 ∧
    (Op.run (do SetDbByTenant T r; SetDbByTenant T r) e).state.dbs.length
      = (Op.run (SetDbByTenant T r) e).state.dbs.length ∧
    (Op.run (do SetDbByTenant T r; SetDbByTenant T r; GetDbByTenant T) e).ret?
      = (Op.run (do SetDbByTenant T r; GetDbByTenant T) e).ret? ∧
    (Op.run (do SetDbByTenant T r; GetDbByTenant T) e).ret? ≠ none := by
  simp [Op.run_bind, SetDbByTenant_run, GetDbByTenant_run, hfree, Outcome.ret?, Outcome.state,
    Application.untraced, GoMap.assign_assign, GoMap.count_assign _ _ _ hkeys]

theorem set_db_idempotent_witness :
    (Op.run (do SetDbByTenant "acme" (Value.obj 7); SetDbByTenant "acme" (Value.obj 7)) twoTenantRegistry).state.untraced
      = (Op.run (SetDbByTenant "acme" (Value.obj 7)) twoTenantRegistry).state.untraced ∧
    GoMap.count (Op.run (do SetDbByTenant "acme" (Value.obj 7); SetDbByTenant "acme" (Value.obj 7)) twoTenantRegistry).state.dbs "acme"
      = 1 :=
  have h := set_db_idempotent twoTenantRegistry "acme" (Value.obj 7) (by decide) (by decide)
  ⟨h.2.1, h.2.2.2.1⟩

/-- Claim C13, as stated, fails: on the registry built by `NewConfig()`,
`SetDbByTenant("", r)` binds `r` under the empty key, and `GetDbByTenant("")` returns it. -/
theorem empty_tenant_is_bound :
    GoMap.find (Op.run (SetDbByTenant "" (Value.obj 1)) NewConfig).state.dbs ""
      = some (Value.obj 1) ∧
    (Op.run (do SetDbByTenant "" (Value.obj 1); GetDbByTenant "") NewConfig).ret?
      = some (Value.obj 1) := by
  decide

/-- Claim C13, amended. The registry does not reject the empty tenant. On the registry
built by `NewConfig()` no binding map has any entry. On a registry whose lock is free, each
of `SetDbByTenant`, `SetCasbinByTenant`, `SetCrontabByTenant`, `SetAppByTenant`,
`SetCasbinExcludeByTenant`, `SetMiddleware`, `SetConfigByTenant` and `SetHandlerByTenant`
called with the tenant `""` returns and binds its argument under the key `""`, and
`SetDefaultTenant("")` makes `""` the default tenant. -/
theorem empty_tenant_accepted (e : Application) (r : Value) (c : Config)
    (hfree : e.mux = RWMutex.free) :
    (NewConfig.dbs = [] ∧ NewConfig.casbins = [] ∧ NewConfig.crontab = [] ∧
      NewConfig.app = [] ∧ NewConfig.casbinExclude = [] ∧ NewConfig.middlewares = [] ∧
      NewConfig.configs = [] ∧ NewConfig.handler = []) ∧
    ((Op.run (SetDbByTenant "" r) e).ret? = some () ∧
      GoMap.find (Op.run (SetDbByTenant "" r) e).state.dbs "" = some r) ∧
    ((Op.run (SetCasbinByTenant "" r) e).ret? = some () ∧
      GoMap.find (Op.run (SetCasbinByTenant "" r) e).state.casbins "" = some r) ∧
    ((Op.run (SetCrontabByTenant "" r) e).ret? = some () ∧
      GoMap.find (Op.run (SetCrontabByTenant "" r) e).state.crontab "" = some r) ∧
    ((Op.run (SetAppByTenant "" r) e).ret? = some () ∧
      GoMap.find (Op.run (SetAppByTenant "" r) e).state.app "" = some r) ∧
    ((Op.run (SetCasbinExcludeByTenant "" r) e).ret? = some () ∧
      GoMap.find (Op.run (SetCasbinExcludeByTenant "" r) e).state.casbinExclude "" = some r) ∧
    ((Op.run (SetMiddleware "" r) e).ret? = some () ∧
      GoMap.find (Op.run (SetMiddleware "" r) e).state.middlewares "" = some r) ∧
    ((Op.run (SetConfigByTenant "" c) e).ret? = some () ∧
      GoMap.find (Op.run (SetConfigByTenant "" c) e).state.configs "" = some c) ∧
    ((Op.run (SetHandlerByTenant "" r) e).ret? = some () ∧
      GoMap.find (Op.run (SetHandlerByTenant "" r) e).state.handler ""
        = some (GoMap.index e.handler "" ++ [r])) ∧
    (Op.run (do SetDefaultTenant ""; GetDefaultTenant) e).ret? = some "" := by
  refine ⟨⟨rfl, rfl, rfl, rfl, rfl, rfl, rfl, rfl⟩, ?_⟩
  simp [Op.run_bind, SetDbByTenant_run, SetCasbinByTenant_run, SetCrontabByTenant_run,
    SetAppByTenant_run, SetCasbinExcludeByTenant_run, SetMiddleware_run, SetConfigByTenant_run,
    SetHandlerByTenant_run, SetDefaultTenant_run, GetDefaultTenant_run, hfree, Outcome.ret?,
    Outcome.state, GoMap.find_assign_same]

theorem empty_tenant_accepted_witness :
    GoMap.find (Op.run (SetCasbinByTenant "" (Value.obj 1)) twoTenantRegistry).state.casbins ""
      = some (Value.obj 1) ∧
    (Op.run (do SetDefaultTenant ""; GetDefaultTenant) twoTenantRegistry).ret? = some "" :=
  have h := empty_tenant_accepted twoTenantRegistry (Value.obj 1) Config.nil (by decide)
  ⟨h.2.2.1.2, h.2.2.2.2.2.2.2.2.2⟩

/-- Claim C19 (`GetRouter` accumulates). When the engine is a gin engine with the route list
`R`, a call of `GetRouter()` appends one `Router` per route of `R`, in the order of `R`, to
the stored table and returns the whole table; on the registry built by `NewConfig()` with
such an engine set, call number `n + 1` returns `R` repeated `n + 1` times, which has
`(n + 1) * k` entries for `k` routes. When the engine is nil or another handler,
`GetRouter()` returns the stored table and changes nothing. -/
theorem getRouter_accumulates (e : Application) (R : List RouteInfo) (n id : Nat) :
    (e.engine = Engine.gin R →
      Op.run GetRouter e = Outcome.ok (e.routers ++ R.map Router.ofRoute)
        { e with routers := e.routers ++ R.map Router.ofRoute }) ∧
    ((Op.run GetRouter
        (afterGetRouterCalls n (Op.run (SetEngine (Engine.gin R)) NewConfig).state)).ret?
        = some (repeatedRoutes R (n + 1)) ∧
      (repeatedRoutes R (n + 1)).length = (n + 1) * R.length) ∧
    (e.engine = Engine.nil → Op.run GetRouter e = Outcome.ok e.routers e) ∧
    (e.engine = Engine.other id → Op.run GetRouter e = Outcome.ok e.routers e) := by
  refine ⟨GetRouter_run_gin e R, ⟨?_, repeatedRoutes_length R (n + 1)⟩, ?_, ?_⟩
  · have hset : (Op.run (SetEngine (Engine.gin R)) NewConfig).state
        = { NewConfig with engine := Engine.gin R } := rfl
    rw [hset, afterGetRouterCalls_gin R n _ rfl, GetRouter_run_gin _ R rfl]
    simp [Outcome.ret?, NewConfig, repeatedRoutes, repeatedRoutes_append]
  · intro h
    simp [Op.run, GetRouter, setRouter, h]
  · intro h
    simp [Op.run, GetRouter, setRouter, h]

theorem getRouter_accumulates_witness :
    (Op.run GetRouter ginRegistry).ret?
      = some [{ HttpMethod := "GET", RelativePath := "/ping", Handler := "main.ping" },
              { HttpMethod := "POST", RelativePath := "/login", Handler := "main.login" }] ∧
    Op.run GetRouter NewConfig = Outcome.ok [] NewConfig :=
  have h := getRouter_accumulates ginRegistry
    [{ Method := "GET", Path := "/ping", Handler := "main.ping" },
     { Method := "POST", Path := "/login", Handler := "main.login" }] 0 0
  have g := getRouter_accumulates NewConfig [] 0 0
  ⟨by rw [h.1 rfl]; rfl, g.2.2.1 rfl⟩

end Runtime

namespace Logger

open Runtime (GoMap RWMutex)

/-! ## Lemmas on the logger -/

theorem assign_new (m : GoMap Any) (k : String) (v : Any) (h : k ∉ GoMap.keys m) :
    GoMap.assign m k v = m ++ [(k, v)] := by
  induction m with
  | nil => rfl
  | cons p rest ih =>
    obtain ⟨k1, v1⟩ := p
    simp only [GoMap.keys, List.map_cons, List.mem_cons, not_or] at h
    have hne : ¬ k1 = k := fun hh => h.1 hh.symm
    simp [GoMap.assign, hne, ih h.2]

theorem foldl_assign_append (m acc : GoMap Any)
    (hm : (GoMap.keys m).Nodup) (hd : ∀ k ∈ GoMap.keys m, k ∉ GoMap.keys acc) :
    m.foldl (fun dst kv => GoMap.assign dst kv.1 kv.2) acc = acc ++ m := by
  induction m generalizing acc with
  | nil => simp
  | cons p rest ih =>
    obtain ⟨k1, v1⟩ := p
    simp only [GoMap.keys, List.map_cons, List.nodup_cons] at hm
    have hk1 : k1 ∉ GoMap.keys acc := hd k1 (by simp [GoMap.keys])
    simp only [List.foldl_cons]
    rw [assign_new acc k1 v1 hk1, ih (acc ++ [(k1, v1)]) hm.2]
    · simp
    · intro k hk
      have hk2 : k ∉ GoMap.keys acc := hd k (by simp [GoMap.keys] at hk ⊢; exact Or.inr hk)
      have hne : k ≠ k1 := fun hh => hm.1 (by simpa [GoMap.keys, hh] using hk)
      simp only [GoMap.keys, List.map_append, List.map_cons, List.map_nil, List.mem_append,
        List.mem_singleton, not_or]
      exact ⟨hk2, hne⟩

theorem copyFields_eq (m : GoMap Any) (h : (GoMap.keys m).Nodup) : copyFields m = m := by
  have := foldl_assign_append m [] h (by simp [GoMap.keys])
  simpa [copyFields] using this

theorem insertSorted_perm (k : String) (xs : List String) :
    (insertSorted k xs).Perm (k :: xs) := by
  induction xs with
  | nil => simp [insertSorted]
  | cons x xs ih =>
    by_cases h : stringLess k x = true
    · simp [insertSorted, h]
    · simp only [insertSorted, h]
      exact (List.Perm.cons x ih).trans (List.Perm.swap k x xs)

theorem stringLess_iff (a b : String) : stringLess a b = true ↔ a < b := by
  simp [stringLess, String.lt_iff_toList_lt]

theorem insertSorted_sorted (k : String) (xs : List String) (h : xs.Sorted (· ≤ ·)) :
    (insertSorted k xs).Sorted (· ≤ ·) := by
  induction xs with
  | nil => simp [insertSorted]
  | cons x xs ih =>
    have hx := List.sorted_cons.mp h
    by_cases hk : stringLess k x = true
    · have hlt : k < x := (stringLess_iff k x).mp hk
      simp only [insertSorted, hk, if_true]
      refine List.sorted_cons.mpr ⟨?_, h⟩
      intro y hy
      rcases List.mem_cons.mp hy with hy | hy
      · rw [hy]; exact le_of_lt hlt
      · exact le_trans (le_of_lt hlt) (hx.1 y hy)
    · have hle : x ≤ k := not_lt.mp (fun hh => hk ((stringLess_iff k x).mpr hh))
      simp only [insertSorted, hk]
      refine List.sorted_cons.mpr ⟨?_, ih hx.2⟩
      intro y hy
      rcases List.mem_cons.mp ((insertSorted_perm k xs).mem_iff.mp hy) with hy | hy
      · rw [hy]; exact hle
      · exact hx.1 y hy

theorem sortStrings_perm (keys : List String) : (sortStrings keys).Perm keys := by
  induction keys with
  | nil => simp [sortStrings]
  | cons k ks ih =>
    have h1 := insertSorted_perm k (sortStrings ks)
    simp only [sortStrings, List.foldr_cons] at h1 ih ⊢
    exact h1.trans (List.Perm.cons k ih)

theorem sortStrings_sorted (keys : List String) : (sortStrings keys).Sorted (· ≤ ·) := by
  induction keys with
  | nil => simp [sortStrings]
  | cons k ks ih =>
    simp only [sortStrings, List.foldr_cons] at ih ⊢
    exact insertSorted_sorted k _ ih

theorem metadataLoop_go (fields : GoMap Any) (keys : List String) (i : Nat) (acc : String) :
    metadataLoop fields keys (i + 1) acc =
      String.intercalate.go acc " " (keys.map (fun k => Any.format (GoMap.index fields k))) := by
  induction keys generalizing i acc with
  | nil => simp [metadataLoop, String.intercalate.go]
  | cons k ks ih =>
    simp [metadataLoop, String.intercalate.go, ih]

theorem metadataLoop_eq (fields : GoMap Any) (keys : List String) :
    metadataLoop fields keys 0 "" =
      " ".intercalate (keys.map (fun k => Any.format (GoMap.index fields k))) := by
  cases keys with
  | nil => simp [metadataLoop, String.intercalate]
  | cons k ks =>
    simp [metadataLoop, String.intercalate, metadataLoop_go]

theorem lastIndexByte_none (ys : List Char) (c : Char) (h : c ∉ ys) :
    lastIndexByte ys c = none := by
  induction ys with
  | nil => rfl
  | cons y ys ih =>
    simp only [List.mem_cons, not_or] at h
    have hne : ¬ y = c := fun hh => h.1 hh.symm
    simp [lastIndexByte, ih h.2, hne]

theorem lastIndexByte_append (xs ys : List Char) (c : Char) (h : c ∉ ys) :
    lastIndexByte (xs ++ c :: ys) c = some xs.length := by
  induction xs with
  | nil => simp [lastIndexByte, lastIndexByte_none ys c h]
  | cons x xs ih => simp [lastIndexByte, ih]

theorem logCallerfilePath_two_slashes (pre dir base : String)
    (hdir : '/' ∉ dir.toList) (hbase : '/' ∉ base.toList) :
    logCallerfilePath (pre ++ "/" ++ dir ++ "/" ++ base) = dir ++ "/" ++ base := by
  have h1 : (pre ++ "/" ++ dir ++ "/" ++ base).toList
      = (pre.toList ++ '/' :: dir.toList) ++ '/' :: base.toList := by
    simp [String.toList]
  have h2 : lastIndexByte ((pre.toList ++ '/' :: dir.toList) ++ '/' :: base.toList) '/'
      = some (pre.toList ++ '/' :: dir.toList).length :=
    lastIndexByte_append _ _ _ hbase
  have h3 : lastIndexByte (pre.toList ++ '/' :: dir.toList) '/' = some pre.toList.length :=
    lastIndexByte_append _ _ _ hdir
  simp only [logCallerfilePath, h1, h2, List.take_left', h3]
  have h4 : List.drop (pre.toList.length + 1)
      ((pre.toList ++ '/' :: dir.toList) ++ '/' :: base.toList)
      = dir.toList ++ '/' :: base.toList := by
    have : (pre.toList ++ '/' :: dir.toList) ++ '/' :: base.toList
        = (pre.toList ++ ['/']) ++ (dir.toList ++ '/' :: base.toList) := by simp
    rw [this]
    exact List.drop_left' (by simp)
  rw [h4]
  apply String.ext
  simp [String.toList]

theorem logf_disabled (env : Env) (l : defaultLogger) (level : Level) (format : String)
    (v : List Any) (h : l.opts.Level.Enabled level = false) :
    defaultLogger.logf env l level format v = some l := by
  simp [defaultLogger.logf, h]

theorem bracket_ne_empty (name : String) : "[" ++ name ++ "]" ≠ "" := by
  intro h
  have := congrArg String.length h
  simp at this
  exact absurd this.1.1 (by decide)

theorem bracket_ne_empty_assoc (name : String) : "[" ++ (name ++ "]") ≠ "" := by
  rw [← String.append_assoc]
  exact bracket_ne_empty name

theorem logf_enabled (env : Env) (l : defaultLogger) (level : Level) (format : String)
    (v : List Any) (hfree : l.RWMutex = Runtime.RWMutex.free)
    (h : l.opts.Level.Enabled level = true) :
    defaultLogger.logf env l level format v = some
      { l with written := l.written ++
          [specLine l.opts.Name env.now (Level.String level)
            ((sortStrings (GoMap.keys (recordFields env l level))).map
              (fun k => Any.format (GoMap.index (recordFields env l level) k)))
            (recordMessage env format v)] } := by
  cases l with
  | mk mu opts written =>
    simp only [Runtime.RWMutex.free] at hfree
    subst hfree
    by_cases hn : opts.Name = ""
    · simp [defaultLogger.logf, h, Runtime.RWMutex.RLock, Runtime.RWMutex.RUnlock, hn, specLine,
        metadataLoop_eq, String.append_assoc]
    · simp [defaultLogger.logf, h, Runtime.RWMutex.RLock, Runtime.RWMutex.RUnlock, hn, specLine,
        metadataLoop_eq, String.append_assoc, bracket_ne_empty_assoc]

/-! ## The claims on the default logger -/

/-- Claim C14, as stated, fails: on a default logger with the attached fields `{a: 1}`,
`Fields({b: 2})` leaves a logger whose attached fields are `{b: 2}` alone (the key `a` is
gone, nothing is merged), and that logger is the receiver: its `Options().Fields` is
`{b: 2}` afterwards, where it was `{a: 1}` before. -/
theorem fields_replaces_and_mutates :
    (defaultLogger.Fields fieldsLogger [("b", Any.int 2)]).map (fun l => l.opts.Fields)
      = some [("b", Any.int 2)] ∧
    (defaultLogger.Fields fieldsLogger [("b", Any.int 2)]).map
      (fun l => GoMap.find l.opts.Fields "a") = some none ∧
    ((defaultLogger.Fields fieldsLogger [("b", Any.int 2)]).bind defaultLogger.Options).map
      (fun r => r.1.Fields) = some [("b", Any.int 2)] ∧
    (defaultLogger.Options fieldsLogger).map (fun r => r.1.Fields)
      = some [("a", Any.int 1)] := by
  decide

/-- Claim C14, amended. `Fields` on the default logger sets the attached fields of the
receiver: for a default logger `l` whose lock is free and a map `m` (one entry per key),
`l.Fields(m)` stores a copy of `m` as the attached fields of `l` itself, whatever fields
were attached before, changes no other option, and returns `l`; afterwards
`l.Options().Fields` is `m`. -/
theorem fields_sets_attached_fields (l : defaultLogger) (m : GoMap Any)
    (hfree : l.RWMutex = Runtime.RWMutex.free) (hkeys : (GoMap.keys m).Nodup) :
    defaultLogger.Fields l m = some { l with opts := { l.opts with Fields := m } } ∧
    ((defaultLogger.Fields l m).bind defaultLogger.Options).map (fun r => r.1)
      = some { l.opts with Fields := m } ∧
    ((defaultLogger.Fields l m).bind defaultLogger.Options).map (fun r => r.2)
      = some { l with opts := { l.opts with Fields := m } } := by
  cases l with
  | mk mu opts written =>
    simp only [Runtime.RWMutex.free] at hfree
    subst hfree
    simp [defaultLogger.Fields, defaultLogger.Options, Runtime.RWMutex.Lock,
      Runtime.RWMutex.Unlock, Runtime.RWMutex.RLock, Runtime.RWMutex.RUnlock,
      copyFields_eq m hkeys]

theorem fields_sets_attached_fields_witness :
    defaultLogger.Fields fieldsLogger [("b", Any.int 2)]
      = some { fieldsLogger with opts := { fieldsLogger.opts with Fields := [("b", Any.int 2)] } } :=
  (fields_sets_attached_fields fieldsLogger [("b", Any.int 2)] (by decide) (by decide)).1

/-- Claim C15 (level gating in the default logger). For a default logger whose lock is
free, with the threshold `l.opts.Level` and a message level `L`: when `L >= threshold` in
the order `Trace < Debug < Info < Warn < Error < Fatal`, `Log(L, ...)` and `Logf(L, ...)`
each pass exactly one record to the output and change nothing else; otherwise they write
nothing and change nothing. A logger made with `WithLevel(WarnLevel)` writes nothing for
`Trace`, `Debug` and `Info` and one line each for `Warn`, `Error` and `Fatal`. -/
theorem default_logger_level_gating (env : Env) (l : defaultLogger) (L : Level)
    (format : String) (v : List Any) (hfree : l.RWMutex = Runtime.RWMutex.free) :
    (l.opts.Level.rank ≤ L.rank →
      (∃ line, defaultLogger.Log env l L v = some { l with written := l.written ++ [line] }) ∧
      (∃ line, defaultLogger.Logf env l L format v
        = some { l with written := l.written ++ [line] })) ∧
    (¬ l.opts.Level.rank ≤ L.rank →
      defaultLogger.Log env l L v = some l ∧ defaultLogger.Logf env l L format v = some l) ∧
    ((defaultLogger.Log env (NewLogger [WithLevel Level.WarnLevel]) Level.TraceLevel v).map
        (fun r => r.written.length) = some 0 ∧
      (defaultLogger.Log env (NewLogger [WithLevel Level.WarnLevel]) Level.DebugLevel v).map
        (fun r => r.written.length) = some 0 ∧
      (defaultLogger.Log env (NewLogger [WithLevel Level.WarnLevel]) Level.InfoLevel v).map
        (fun r => r.written.length) = some 0 ∧
      (defaultLogger.Log env (NewLogger [WithLevel Level.WarnLevel]) Level.WarnLevel v).map
        (fun r => r.written.length) = some 1 ∧
      (defaultLogger.Log env (NewLogger [WithLevel Level.WarnLevel]) Level.ErrorLevel v).map
        (fun r => r.written.length) = some 1 ∧
      (defaultLogger.Log env (NewLogger [WithLevel Level.WarnLevel]) Level.FatalLevel v).map
        (fun r => r.written.length) = some 1) := by
  refine ⟨?_, ?_, ?_⟩
  · intro h
    have hen : l.opts.Level.Enabled L = true := by simp [Level.Enabled, h]
    exact ⟨⟨_, logf_enabled env l L "" v hfree hen⟩, ⟨_, logf_enabled env l L format v hfree hen⟩⟩
  · intro h
    have hen : l.opts.Level.Enabled L = false := by simp [Level.Enabled, h]
    exact ⟨logf_disabled env l L "" v hen, logf_disabled env l L format v hen⟩
  · have hw : (NewLogger [WithLevel Level.WarnLevel]).RWMutex = Runtime.RWMutex.free := rfl
    refine ⟨?_, ?_, ?_, ?_, ?_, ?_⟩
    · rw [defaultLogger.Log, logf_disabled env (NewLogger [WithLevel Level.WarnLevel]) Level.TraceLevel "" v rfl]; rfl
    · rw [defaultLogger.Log, logf_disabled env (NewLogger [WithLevel Level.WarnLevel]) Level.DebugLevel "" v rfl]; rfl
    · rw [defaultLogger.Log, logf_disabled env (NewLogger [WithLevel Level.WarnLevel]) Level.InfoLevel "" v rfl]; rfl
    · rw [defaultLogger.Log, logf_enabled env _ Level.WarnLevel "" v hw rfl]; rfl
    · rw [defaultLogger.Log, logf_enabled env _ Level.ErrorLevel "" v hw rfl]; rfl
    · rw [defaultLogger.Log, logf_enabled env _ Level.FatalLevel "" v hw rfl]; rfl

theorem default_logger_level_gating_witness :
    (∃ line, defaultLogger.Log sampleEnv (NewLogger []) Level.WarnLevel [Any.str "x"]
      = some { NewLogger [] with written := (NewLogger []).written ++ [line] }) ∧
    defaultLogger.Log sampleEnv (NewLogger []) Level.DebugLevel [Any.str "x"]
      = some (NewLogger []) :=
  have h := default_logger_level_gating sampleEnv (NewLogger []) Level.WarnLevel "" [Any.str "x"]
    (by decide)
  have g := default_logger_level_gating sampleEnv (NewLogger []) Level.DebugLevel ""
    [Any.str "x"] (by decide)
  ⟨(h.1 (by decide)).1, (g.2.1 (by decide)).1⟩

/-- Claim C16, as stated, fails in two places. `Logf` with an empty format writes the text of
`fmt.Sprint(args...)` as the message, not that of `fmt.Sprintf(format, args...)`; and a
record at level `Error` carries the call site in its metadata although no field is attached
to the logger. -/
theorem line_format_deviations :
    (defaultLogger.Logf sampleEnv (NewLogger []) Level.InfoLevel "" [Any.str "x"]).map
      (fun r => r.written) = some ["2026-01-02 03:04:05.000+0000 info  x\n"] ∧
    specLine "" sampleEnv.now "info" [] (sampleEnv.Sprintf "" [Any.str "x"])
      = "2026-01-02 03:04:05.000+0000 info  %!(EXTRA string=x)\n" ∧
    ((NewLogger []).opts.Fields = [] ∧
      (defaultLogger.Log sampleEnv (NewLogger []) Level.ErrorLevel [Any.str "x"]).map
        (fun r => r.written)
        = some ["2026-01-02 03:04:05.000+0000 error service/user.go:42 x\n"]) := by
  decide

/-- Claim C16, amended. For an enabled record on a default logger whose lock is free, with
the timestamp text `t` and the level text `lv`, the bytes written are
`[name] t lv metadata message` and a newline when the name is not empty, and
`t lv metadata message` and a newline when it is empty. The metadata is the values of the
fields of the record (the attached fields and, when it is added, the attribute `file`), each
formatted with `%v`, in ascending order of their keys, joined by single spaces. The message
is `Sprint(args)` for `Log` and for `Logf` with an empty format, and
`Sprintf(format, args)` for `Logf` with any other format. -/
theorem logf_line_format (env : Env) (l : defaultLogger) (level : Level) (format : String)
    (v : List Any) (hfree : l.RWMutex = Runtime.RWMutex.free)
    (hen : l.opts.Level.Enabled level = true) :
    ∃ keys : List String,
      keys.Perm (GoMap.keys (recordFields env l level)) ∧
      keys.Sorted (· ≤ ·) ∧
      defaultLogger.Logf env l level format v = some
        { l with written := l.written ++
            [specLine l.opts.Name env.now (Level.String level)
              (keys.map (fun k => Any.format (GoMap.index (recordFields env l level) k)))
              (if format = "" then env.Sprint v else env.Sprintf format v)] } ∧
      defaultLogger.Log env l level v = some
        { l with written := l.written ++
            [specLine l.opts.Name env.now (Level.String level)
              (keys.map (fun k => Any.format (GoMap.index (recordFields env l level) k)))
              (env.Sprint v)] } := by
  refine ⟨sortStrings (GoMap.keys (recordFields env l level)), sortStrings_perm _,
    sortStrings_sorted _, ?_, ?_⟩
  · rw [defaultLogger.Logf, logf_enabled env l level format v hfree hen]
    rfl
  · rw [defaultLogger.Log, logf_enabled env l level "" v hfree hen]
    rfl

theorem logf_line_format_witness :
    ∃ keys : List String,
      keys.Sorted (· ≤ ·) ∧
      defaultLogger.Log sampleEnv (NewLogger [WithName "test", WithFields [("b", Any.str "2"), ("a", Any.str "1")]]) Level.InfoLevel [Any.str "x"]
        = some { NewLogger [WithName "test", WithFields [("b", Any.str "2"), ("a", Any.str "1")]] with
                 written := [specLine "test" "2026-01-02 03:04:05.000+0000" "info"
                   (keys.map (fun k => Any.format (GoMap.index
                     [("b", Any.str "2"), ("a", Any.str "1")] k))) "x"] } :=
  (logf_line_format sampleEnv
    (NewLogger [WithName "test", WithFields [("b", Any.str "2"), ("a", Any.str "1")]])
    Level.InfoLevel "" [Any.str "x"] (by decide) (by decide)).imp
    (fun _ h => ⟨h.2.1, h.2.2.2⟩)

/-- Claim C17, as stated, fails: a record at level `Fatal` gets no attribute `file`, although
the caller lookup succeeds; its metadata stays empty. -/
theorem fatal_record_has_no_file_attribute :
    sampleEnv.Caller (NewLogger []).opts.CallerSkipCount
      = some ("/go/src/app/service/user.go", 42) ∧
    GoMap.find (recordFields sampleEnv (NewLogger []) Level.FatalLevel) "file" = none ∧
    (defaultLogger.Log sampleEnv (NewLogger []) Level.FatalLevel [Any.str "x"]).map
      (fun r => r.written) = some ["2026-01-02 03:04:05.000+0000 fatal  x\n"] := by
  decide

/-- Claim C17, amended. The attribute `file` is added to the fields of a record at level
`Error` only, and only when the caller lookup succeeds: its value is then the trimmed path
of the caller, a colon and the line, and for a path that ends in `/<dir>/<file>` the trimmed
path is `<dir>/<file>`. For a record at any other level (`Fatal` included), or when the
lookup fails, the fields of the record are a copy of the attached fields. The attribute goes
into that copy: after the call the options of the logger, its attached fields among them,
are as before. -/
theorem file_attribute_at_error_level (env : Env) (l : defaultLogger) (level : Level)
    (format : String) (v : List Any) (file : String) (line : Nat) (pre dir base : String)
    (hfree : l.RWMutex = Runtime.RWMutex.free) :
    (env.Caller l.opts.CallerSkipCount = some (file, line) →
      GoMap.find (recordFields env l Level.ErrorLevel) "file"
        = some (Any.str (logCallerfilePath file ++ ":" ++ toString line))) ∧
    ('/' ∉ dir.toList → '/' ∉ base.toList →
      logCallerfilePath (pre ++ "/" ++ dir ++ "/" ++ base) = dir ++ "/" ++ base) ∧
    (level ≠ Level.ErrorLevel → recordFields env l level = copyFields l.opts.Fields) ∧
    (env.Caller l.opts.CallerSkipCount = none →
      recordFields env l level = copyFields l.opts.Fields) ∧
    (defaultLogger.logf env l level format v).map (fun r => r.opts) = some l.opts := by
  refine ⟨?_, logCallerfilePath_two_slashes pre dir base, ?_, ?_, ?_⟩
  · intro h
    simp [recordFields, h, Level.String, GoMap.find_assign_same]
  · intro h
    cases hc : env.Caller l.opts.CallerSkipCount with
    | none => simp [recordFields, hc]
    | some p =>
      cases level <;> simp_all [recordFields, Level.String]
  · intro h
    simp [recordFields, h]
  · cases hen : l.opts.Level.Enabled level with
    | false => simp [logf_disabled env l level format v hen]
    | true => simp [logf_enabled env l level format v hfree hen]

theorem file_attribute_at_error_level_witness :
    GoMap.find (recordFields sampleEnv (NewLogger []) Level.ErrorLevel) "file"
      = some (Any.str (logCallerfilePath "/go/src/app/service/user.go" ++ ":" ++ toString 42)) ∧
    logCallerfilePath ("/go/src/app" ++ "/" ++ "service" ++ "/" ++ "user.go")
      = "service" ++ "/" ++ "user.go" ∧
    recordFields sampleEnv (NewLogger []) Level.WarnLevel = copyFields (NewLogger []).opts.Fields :=
  have h := file_attribute_at_error_level sampleEnv (NewLogger []) Level.WarnLevel ""
    [Any.str "x"] "/go/src/app/service/user.go" 42 "/go/src/app" "service" "user.go" (by decide)
  ⟨h.1 (by decide), h.2.1 (by decide) (by decide), h.2.2.1 (by decide)⟩

end Logger

namespace Zap

open Logger (Level)

/-! ## The claim on the zap backend -/

/-- Claim C18, as stated, fails at one of the 36 pairs: a zap-backed logger made with
`WithLevel(DebugLevel)` emits a message logged at `TraceLevel`, although `Trace < Debug`. -/
theorem zap_debug_threshold_emits_trace :
    emits Level.DebugLevel Level.TraceLevel = true ∧
    ¬ (Level.rank Level.DebugLevel ≤ Level.rank Level.TraceLevel) := by
  decide

/-- Claim C18, amended. A zap-backed logger made with `WithLevel(T)` writes the message of
`Log(L, ...)`, at the translated level of `L`, iff the translated level of `L` is at least
the translated level of `T`, and nothing otherwise. As `Trace` and `Debug` both translate to
zap's `Debug`, this is `L >= T` for every pair of levels except `T = Debug`, `L = Trace`,
where the message is emitted. -/
theorem zap_level_gating (T L : Level) (msg : String) :
    (zaplog.Log (NewLogger [Logger.WithLevel T]) L msg).map (fun l => l.entries)
      = some (if (loggerToZapLevel T).toInt ≤ (loggerToZapLevel L).toInt
          then [(loggerToZapLevel L, msg)] else []) ∧
    (emits T L = true ↔
      (Level.rank T ≤ Level.rank L ∨ (T = Level.DebugLevel ∧ L = Level.TraceLevel))) := by
  cases T <;> cases L <;> exact ⟨rfl, by decide⟩

end Zap
